import Mathlib

/-!
# Verification of the MGNREGA dashboard server (src/server.js)

A shallow embedding of the data model and operations of `src/server.js`:
the synthetic data generator, the haversine distance helper, the HTTP
handlers for `/api/districts`, `/api/location-to-district`,
`/api/performance/:districtCode` and `/api/trends/:districtCode`, the
fixed-window rate limiter, and the bootstrap routine `initDatabase`.

Modelling conventions:
* JS numbers appearing in request bodies and stored coordinates are
  modelled as rationals (`ℚ`); the trigonometric computations of
  `Math.sin`, `Math.cos`, `Math.atan2`, `Math.sqrt` are modelled by the
  exact real functions (`Real.sin`, ...).  IEEE-754 rounding is not
  modelled; every numeric fact proved below holds with margins that are
  many orders of magnitude wider than double-precision rounding error.
* The JS remainder operator `%` on integers is truncated division
  remainder, i.e. `Int.tmod`.
* `Math.floor` on reals is `Int.floor`.
* Fallible database queries are modelled as `Except Unit` values that a
  handler receives: `.ok rows` for a successful query, `.error ()` for a
  connection/query failure (the JS `catch` path).
* The in-memory caches are modelled as the `Option`-valued contents the
  handler observes for the relevant key (`none` = miss).
-/

namespace Mgnrega

/-- The ten-metric record returned by `generateDistrictData`
(src/server.js lines 103-114). -/
structure DistrictData where
  totalJobCards : ℤ
  activeWorkers : ℤ
  completedWorks : ℤ
  ongoingWorks : ℤ
  totalExpenditure : ℤ
  avgWagePaid : ℤ
  workDemand : ℤ
  workProvided : ℤ
  avgPaymentDays : ℤ
  womenParticipation : ℤ
  deriving Repr, DecidableEq

/-- Embeds `districtCode.charCodeAt(0)`: the code of the first character of the
string.  JS returns `NaN` on the empty string; we return `0` there, and
every claim about `generateDistrictData` is stated for nonempty codes. -/
def charCodeAt0 (s : String) : ℕ :=
  match s.data with
  | [] => 0
  | c :: _ => c.toNat

/-- The shared pseudo-random draw of `generateDistrictData`
(src/server.js line 101): `Math.floor(Math.sin(seed * 9999) * 10000)`.
`Math.sin` is modelled by the exact real sine. -/
noncomputable def sinDraw (seed : ℕ) : ℤ :=
  ⌊Real.sin ((seed : ℝ) * 9999) * 10000⌋

/-- The inner arrow function `random(min, max)` of `generateDistrictData`
(src/server.js line 101):
`(Math.floor(Math.sin(seed * 9999) * 10000) % (max - min)) + min`.
JS `%` is truncated remainder, `Int.tmod`. -/
noncomputable def randomIn (seed : ℕ) (lo hi : ℤ) : ℤ :=
  (sinDraw seed).tmod (hi - lo) + lo

/-- Embeds `generateDistrictData(districtCode, month, year)`
(src/server.js lines 99-115). -/
noncomputable def generateDistrictData (districtCode : String) (month year : ℕ) :
    DistrictData :=
  let seed := charCodeAt0 districtCode + month + year
  { totalJobCards := randomIn seed 80000 150000
    activeWorkers := randomIn seed 40000 90000
    completedWorks := randomIn seed 150 600
    ongoingWorks := randomIn seed 50 200
    totalExpenditure := randomIn seed 80 200
    avgWagePaid := randomIn seed 250 320
    workDemand := randomIn seed 50000 100000
    workProvided := randomIn seed 45000 95000
    avgPaymentDays := randomIn seed 8 18
    womenParticipation := randomIn seed 45 65 }

/-! ### Arithmetic facts about `Int.tmod` (the JS `%` operator) -/

theorem neg_tmod_eq (a b : ℤ) : (-a).tmod b = -(a.tmod b) := by
  rw [Int.tmod_def, Int.tmod_def, Int.neg_tdiv]
  ring

theorem tmod_eq_self_of_lt {a b : ℤ} (h1 : -b < a) (h2 : a < b) : a.tmod b = a := by
  rcases le_or_lt 0 a with h | h
  · exact Int.tmod_eq_of_lt h h2
  · have ha : a = -(-a) := by ring
    rw [ha, neg_tmod_eq, Int.tmod_eq_of_lt (by omega) (by omega)]

theorem tmod_bounds {a b : ℤ} (hb : 0 < b) : -b < a.tmod b ∧ a.tmod b < b := by
  constructor
  · rcases le_or_lt 0 a with h | h
    · have := Int.tmod_nonneg b h
      omega
    · have ha : a = -(-a) := by ring
      rw [ha, neg_tmod_eq]
      have := Int.tmod_lt_of_pos (-a) hb
      omega
  · rcases le_or_lt 0 a with h | h
    · exact Int.tmod_lt_of_pos a hb
    · have ha : a = -(-a) := by ring
      rw [ha, neg_tmod_eq]
      have := Int.tmod_nonneg b (by omega : (0:ℤ) ≤ -a)
      omega

/-! ### Claim C9: all ten metrics come from one shared draw -/

/-- Claim C9 (confirmed):  In `generateDistrictData` all ten metrics are computed
from the single shared value `Math.floor(Math.sin(seed*9999)*10000)`; hence
`workProvided = workDemand - 5000` (both ranges have width 50000), and every
pair of metrics with equal range width (`activeWorkers`, `workDemand`,
`workProvided`, all width 50000) differs by the difference of the range
minimums. -/
theorem C9_shared_draw_fixed_offsets (districtCode : String) (month year : ℕ) :
    (∃ K : ℤ,
      (generateDistrictData districtCode month year).totalJobCards = K.tmod 70000 + 80000 ∧
      (generateDistrictData districtCode month year).activeWorkers = K.tmod 50000 + 40000 ∧
      (generateDistrictData districtCode month year).completedWorks = K.tmod 450 + 150 ∧
      (generateDistrictData districtCode month year).ongoingWorks = K.tmod 150 + 50 ∧
      (generateDistrictData districtCode month year).totalExpenditure = K.tmod 120 + 80 ∧
      (generateDistrictData districtCode month year).avgWagePaid = K.tmod 70 + 250 ∧
      (generateDistrictData districtCode month year).workDemand = K.tmod 50000 + 50000 ∧
      (generateDistrictData districtCode month year).workProvided = K.tmod 50000 + 45000 ∧
      (generateDistrictData districtCode month year).avgPaymentDays = K.tmod 10 + 8 ∧
      (generateDistrictData districtCode month year).womenParticipation = K.tmod 20 + 45) ∧
    (generateDistrictData districtCode month year).workProvided =
      (generateDistrictData districtCode month year).workDemand - 5000 ∧
    (generateDistrictData districtCode month year).workDemand -
      (generateDistrictData districtCode month year).activeWorkers = 10000 ∧
    (generateDistrictData districtCode month year).workProvided -
      (generateDistrictData districtCode month year).activeWorkers = 5000 := by
  refine ⟨⟨sinDraw (charCodeAt0 districtCode + month + year), ?_⟩, ?_, ?_, ?_⟩ <;>
    simp [generateDistrictData, randomIn] <;> ring

/-! ### Claim C1: the documented metric ranges -/

/-- Width-70000 instance of the `tmod` bounds, for `totalJobCards`. -/
theorem sin_21027897_neg : Real.sin (21027897 : ℝ) < 0 := by
  have hπu : Real.pi < 3.14159265358979323847 := Real.pi_lt_d20
  have hπl : (3.14159265358979323846 : ℝ) < Real.pi := Real.pi_gt_d20
  have h1 : Real.sin (21027897 : ℝ) =
      Real.sin ((21027897 : ℝ) - (3346693 : ℤ) * (2 * Real.pi)) :=
    (Real.sin_sub_int_mul_two_pi _ _).symm
  set y : ℝ := (21027897 : ℝ) - (3346693 : ℤ) * (2 * Real.pi) with hy
  have hk : ((3346693 : ℤ) : ℝ) = (3346693 : ℝ) := by norm_num
  have hy1 : Real.pi < y := by
    have b1 : (6693387 : ℝ) * Real.pi < 6693387 * 3.14159265358979323847 := by
      have := mul_lt_mul_of_pos_left hπu (by norm_num : (0:ℝ) < 6693387)
      linarith
    have b2 : (6693387 : ℝ) * 3.14159265358979323847 < 21027897 := by norm_num
    rw [hy, hk]
    nlinarith [b1, b2]
  have hy2 : y < 2 * Real.pi := by
    have b1 : (6693388 : ℝ) * 3.14159265358979323846 < 6693388 * Real.pi := by
      have := mul_lt_mul_of_pos_left hπl (by norm_num : (0:ℝ) < 6693388)
      linarith
    have b2 : (21027897 : ℝ) < 6693388 * 3.14159265358979323846 := by norm_num
    rw [hy, hk]
    nlinarith [b1, b2]
  have h2 : Real.sin y = -Real.sin (y - Real.pi) := by
    have := Real.sin_add_pi (y - Real.pi)
    simpa using this.symm
  have h3 : 0 < Real.sin (y - Real.pi) :=
    Real.sin_pos_of_pos_of_lt_pi (by linarith) (by linarith)
  rw [h1, h2]
  linarith

/-- The shared draw at seed 2103 (district code "KOL", month 4, year 2024)
is strictly negative. -/
theorem sinDraw_2103_neg : sinDraw 2103 < 0 := by
  have h : Real.sin (((2103 : ℕ) : ℝ) * 9999) < 0 := by
    have : (((2103 : ℕ) : ℝ) * 9999) = (21027897 : ℝ) := by norm_num
    rw [this]
    exact sin_21027897_neg
  have : Real.sin (((2103 : ℕ) : ℝ) * 9999) * 10000 < 0 := by nlinarith
  unfold sinDraw
  exact_mod_cast Int.floor_lt.mpr (by exact_mod_cast this)

/-- The shared draw is always at least `-10000`, since `sin ≥ -1`. -/
theorem sinDraw_ge (seed : ℕ) : -10000 ≤ sinDraw seed := by
  unfold sinDraw
  apply Int.le_floor.mpr
  push_cast
  nlinarith [Real.neg_one_le_sin ((seed : ℝ) * 9999)]

/-- Claim C1 (counterexample):  The claim that every metric of
`generateDistrictData` lies in its documented `[min,max)` range is false:
for district code "KOL", month 4, year 2024 (seed 2103) the shared draw
`Math.floor(Math.sin(2103*9999)*10000)` is negative, so `totalJobCards`
falls strictly below its documented minimum of 80000. -/
theorem C1_counterexample :
    (generateDistrictData "KOL" 4 2024).totalJobCards < 80000 := by
  have hseed : charCodeAt0 "KOL" + 4 + 2024 = 2103 := by decide
  have hneg := sinDraw_2103_neg
  have hge := sinDraw_ge 2103
  have h : (generateDistrictData "KOL" 4 2024).totalJobCards =
      (sinDraw 2103).tmod 70000 + 80000 := by
    simp [generateDistrictData, randomIn, hseed]
  rw [h, tmod_eq_self_of_lt (by omega) (by omega)]
  omega

/-- Claim C1 (amended):  For every nonempty district code, month in `[0,11]` and
year `≥ 2024`, each metric of `generateDistrictData` lies in the *widened*
open interval `(min - (max-min), max)`: the truncated JS `%` maps the
(possibly negative) shared draw into `(-(max-min), max-min)`, so the result
can undershoot the documented minimum by up to one range width, but never
reaches `max` and never undershoots by a full width. -/
theorem C1_metric_ranges (districtCode : String) (month year : ℕ)
    (hcode : districtCode ≠ "") (hm : month ≤ 11) (hy : 2024 ≤ year) :
    (10000 < (generateDistrictData districtCode month year).totalJobCards ∧
      (generateDistrictData districtCode month year).totalJobCards < 150000) ∧
    (-10000 < (generateDistrictData districtCode month year).activeWorkers ∧
      (generateDistrictData districtCode month year).activeWorkers < 90000) ∧
    (-300 < (generateDistrictData districtCode month year).completedWorks ∧
      (generateDistrictData districtCode month year).completedWorks < 600) ∧
    (-100 < (generateDistrictData districtCode month year).ongoingWorks ∧
      (generateDistrictData districtCode month year).ongoingWorks < 200) ∧
    (-40 < (generateDistrictData districtCode month year).totalExpenditure ∧
      (generateDistrictData districtCode month year).totalExpenditure < 200) ∧
    (180 < (generateDistrictData districtCode month year).avgWagePaid ∧
      (generateDistrictData districtCode month year).avgWagePaid < 320) ∧
    (0 < (generateDistrictData districtCode month year).workDemand ∧
      (generateDistrictData districtCode month year).workDemand < 100000) ∧
    (-5000 < (generateDistrictData districtCode month year).workProvided ∧
      (generateDistrictData districtCode month year).workProvided < 95000) ∧
    (-2 < (generateDistrictData districtCode month year).avgPaymentDays ∧
      (generateDistrictData districtCode month year).avgPaymentDays < 18) ∧
    (25 < (generateDistrictData districtCode month year).womenParticipation ∧
      (generateDistrictData districtCode month year).womenParticipation < 65) := by
  have b1 := tmod_bounds (a := sinDraw (charCodeAt0 districtCode + month + year))
    (show (0:ℤ) < 150000 - 80000 by norm_num)
  have b2 := tmod_bounds (a := sinDraw (charCodeAt0 districtCode + month + year))
    (show (0:ℤ) < 90000 - 40000 by norm_num)
  have b3 := tmod_bounds (a := sinDraw (charCodeAt0 districtCode + month + year))
    (show (0:ℤ) < 600 - 150 by norm_num)
  have b4 := tmod_bounds (a := sinDraw (charCodeAt0 districtCode + month + year))
    (show (0:ℤ) < 200 - 50 by norm_num)
  have b5 := tmod_bounds (a := sinDraw (charCodeAt0 districtCode + month + year))
    (show (0:ℤ) < 200 - 80 by norm_num)
  have b6 := tmod_bounds (a := sinDraw (charCodeAt0 districtCode + month + year))
    (show (0:ℤ) < 320 - 250 by norm_num)
  have b7 := tmod_bounds (a := sinDraw (charCodeAt0 districtCode + month + year))
    (show (0:ℤ) < 100000 - 50000 by norm_num)
  have b8 := tmod_bounds (a := sinDraw (charCodeAt0 districtCode + month + year))
    (show (0:ℤ) < 95000 - 45000 by norm_num)
  have b9 := tmod_bounds (a := sinDraw (charCodeAt0 districtCode + month + year))
    (show (0:ℤ) < 18 - 8 by norm_num)
  have b10 := tmod_bounds (a := sinDraw (charCodeAt0 districtCode + month + year))
    (show (0:ℤ) < 65 - 45 by norm_num)
  simp only [generateDistrictData, randomIn]
  refine ⟨⟨?_, ?_⟩, ⟨?_, ?_⟩, ⟨?_, ?_⟩, ⟨?_, ?_⟩, ⟨?_, ?_⟩, ⟨?_, ?_⟩, ⟨?_, ?_⟩,
    ⟨?_, ?_⟩, ⟨?_, ?_⟩, ⟨?_, ?_⟩⟩ <;>
    first
    | linarith [b1.1, b1.2]
    | linarith [b2.1, b2.2]
    | linarith [b3.1, b3.2]
    | linarith [b4.1, b4.2]
    | linarith [b5.1, b5.2]
    | linarith [b6.1, b6.2]
    | linarith [b7.1, b7.2]
    | linarith [b8.1, b8.2]
    | linarith [b9.1, b9.2]
    | linarith [b10.1, b10.2]

/-- Witness for `C1_metric_ranges` at district code "KOL", month 0,
year 2024. -/
theorem C1_metric_ranges_witness :
    ("KOL" ≠ "" ∧ (0:ℕ) ≤ 11 ∧ (2024:ℕ) ≤ 2024) ∧
    ((10000 < (generateDistrictData "KOL" 0 2024).totalJobCards ∧
      (generateDistrictData "KOL" 0 2024).totalJobCards < 150000) ∧
    (-10000 < (generateDistrictData "KOL" 0 2024).activeWorkers ∧
      (generateDistrictData "KOL" 0 2024).activeWorkers < 90000) ∧
    (-300 < (generateDistrictData "KOL" 0 2024).completedWorks ∧
      (generateDistrictData "KOL" 0 2024).completedWorks < 600) ∧
    (-100 < (generateDistrictData "KOL" 0 2024).ongoingWorks ∧
      (generateDistrictData "KOL" 0 2024).ongoingWorks < 200) ∧
    (-40 < (generateDistrictData "KOL" 0 2024).totalExpenditure ∧
      (generateDistrictData "KOL" 0 2024).totalExpenditure < 200) ∧
    (180 < (generateDistrictData "KOL" 0 2024).avgWagePaid ∧
      (generateDistrictData "KOL" 0 2024).avgWagePaid < 320) ∧
    (0 < (generateDistrictData "KOL" 0 2024).workDemand ∧
      (generateDistrictData "KOL" 0 2024).workDemand < 100000) ∧
    (-5000 < (generateDistrictData "KOL" 0 2024).workProvided ∧
      (generateDistrictData "KOL" 0 2024).workProvided < 95000) ∧
    (-2 < (generateDistrictData "KOL" 0 2024).avgPaymentDays ∧
      (generateDistrictData "KOL" 0 2024).avgPaymentDays < 18) ∧
    (25 < (generateDistrictData "KOL" 0 2024).womenParticipation ∧
      (generateDistrictData "KOL" 0 2024).womenParticipation < 65)) :=
  ⟨⟨by decide, by decide, by decide⟩,
    C1_metric_ranges "KOL" 0 2024 (by decide) (by decide) (by decide)⟩

/-! ### The fixed-window rate limiter (src/server.js lines 46-63) -/

/-- One client's window record `{ count, resetTime }`
(src/server.js lines 53, 55). -/
structure RLEntry where
  count : ℕ
  resetTime : ℤ
  deriving Repr, DecidableEq

/-- Embeds `const RATE_LIMIT = 100` (src/server.js line 47). -/
def RATE_LIMIT : ℕ := 100

/-- The `rateLimit` object: per-client-address window state (`none` means the
address has no entry yet). -/
def RLState : Type := String → Option RLEntry

/-- The assignment `rateLimit[ip] = e`. -/
def rlSet (s : RLState) (ip : String) (e : RLEntry) : RLState :=
  fun i => if i = ip then some e else s i

/-- The `rateLimiter` middleware (src/server.js lines 48-62), as a step
function from (state, client address, current time in ms) to
(allowed?, new state); `true` means the request proceeds (`next()`),
`false` means it is denied with status 429. -/
def rateLimiter (s : RLState) (ip : String) (now : ℤ) : Bool × RLState :=
  match s ip with
  | none => (true, rlSet s ip ⟨1, now + 60000⟩)
  | some e =>
    if e.resetTime < now then (true, rlSet s ip ⟨1, now + 60000⟩)
    else if RATE_LIMIT ≤ e.count then (false, s)
    else (true, rlSet s ip ⟨e.count + 1, e.resetTime⟩)

/-- Process a sequence of requests from a single client at the given times. -/
def runRequests (s : RLState) (ip : String) : List ℤ → RLState
  | [] => s
  | t :: ts => runRequests (rateLimiter s ip t).2 ip ts

/-- Whether the `(n+1)`-st request of the series `ts` (0-indexed `n`) from
client `ip` is allowed. -/
def requestAllowed (s : RLState) (ip : String) (ts : List ℤ) (n : ℕ) : Bool :=
  (rateLimiter (runRequests s ip (ts.take n)) ip (ts.getD n 0)).1

/-- Process a sequence of requests from arbitrary clients, starting from the
empty `rateLimit` object. -/
def runAll (reqs : List (String × ℤ)) : RLState :=
  reqs.foldl (fun s req => (rateLimiter s req.1 req.2).2) (fun _ => none)

theorem rlSet_self (s : RLState) (ip : String) (e : RLEntry) :
    rlSet s ip e ip = some e := by
  simp [rlSet]

/-- Count evolution within one window: starting from an entry `⟨c, r⟩` with
`1 ≤ c ≤ 100`, a series of requests at times `≤ r` leaves the entry at
`⟨min (c + len) 100, r⟩`. -/
theorem runRequests_count (ip : String) (ts : List ℤ) :
    ∀ (s : RLState) (c : ℕ) (r : ℤ), s ip = some ⟨c, r⟩ →
      1 ≤ c → c ≤ RATE_LIMIT → (∀ t ∈ ts, t ≤ r) →
      runRequests s ip ts ip = some ⟨min (c + ts.length) RATE_LIMIT, r⟩ := by
  induction ts with
  | nil =>
    intro s c r hip h1 h2 _
    simpa [runRequests, Nat.min_eq_left h2] using hip
  | cons t ts ih =>
    intro s c r hip h1 h2 hts
    have ht : ¬ r < t := not_lt.mpr (hts t (List.mem_cons_self t ts))
    by_cases hc : RATE_LIMIT ≤ c
    · have hstep : (rateLimiter s ip t).2 = s := by
        simp [rateLimiter, hip, ht, hc]
      rw [runRequests, hstep,
        ih s c r hip h1 h2 (fun u hu => hts u (List.mem_cons_of_mem t hu))]
      have hmin : min (c + ts.length) RATE_LIMIT =
          min (c + (ts.length + 1)) RATE_LIMIT := by omega
      simp [List.length_cons, hmin]
    · have hstep : (rateLimiter s ip t).2 = rlSet s ip ⟨c + 1, r⟩ := by
        simp [rateLimiter, hip, ht, hc]
      rw [runRequests, hstep,
        ih _ (c + 1) r (rlSet_self s ip _) (by omega) (by omega)
          (fun u hu => hts u (List.mem_cons_of_mem t hu))]
      have hmin : min (c + 1 + ts.length) RATE_LIMIT =
          min (c + (ts.length + 1)) RATE_LIMIT := by omega
      simp [List.length_cons, hmin]

/-- Claim C3 (confirmed):  The fixed window behaves as specified: a first
request, or one arriving strictly after the stored reset time, starts a new
60-second window with count 1 and is allowed; and within a window opened by
a request at time `t0`, the `(n+1)`-st request of the series is allowed
exactly when `n + 1 ≤ 100` — so the 100th is allowed and the 101st and all
later ones are denied — while a request after the window elapses again
resets the count to 1 and is allowed. -/
theorem C3_fixed_window (s : RLState) (ip : String) (now : ℤ) :
    (s ip = none → rateLimiter s ip now = (true, rlSet s ip ⟨1, now + 60000⟩)) ∧
    (∀ e : RLEntry, s ip = some e → e.resetTime < now →
      rateLimiter s ip now = (true, rlSet s ip ⟨1, now + 60000⟩)) ∧
    (∀ (t0 : ℤ) (ts : List ℤ), s ip = none → (∀ t ∈ ts, t ≤ t0 + 60000) →
      ∀ n, n < (t0 :: ts).length →
        requestAllowed s ip (t0 :: ts) n = decide (n + 1 ≤ RATE_LIMIT)) := by
  refine ⟨?_, ?_, ?_⟩
  · intro h
    simp [rateLimiter, h]
  · intro e he hlt
    simp [rateLimiter, he, hlt]
  · intro t0 ts hnone hts n hn
    match n with
    | 0 =>
      simp [requestAllowed, runRequests, rateLimiter, hnone, RATE_LIMIT]
    | Nat.succ k =>
      have hk : k < ts.length := by simpa using hn
      have htake : (t0 :: ts).take (k + 1) = t0 :: ts.take k := rfl
      have hstep0 : (rateLimiter s ip t0).2 = rlSet s ip ⟨1, t0 + 60000⟩ := by
        simp [rateLimiter, hnone]
      have hcount := runRequests_count ip (ts.take k) (rlSet s ip ⟨1, t0 + 60000⟩)
        1 (t0 + 60000) (rlSet_self s ip _) (le_refl 1) (by norm_num [RATE_LIMIT])
        (fun u hu => hts u (List.mem_of_mem_take hu))
      have hget : (t0 :: ts).getD (k + 1) 0 = ts.getD k 0 := rfl
      have hmem : ts.getD k 0 ∈ ts := by
        rw [List.getD_eq_getElem ts 0 hk]
        exact List.getElem_mem hk
      have htime : ¬ (t0 + 60000 < ts.getD k 0) := not_lt.mpr (hts _ hmem)
      rw [requestAllowed, htake, hget, runRequests, hstep0]
      rw [List.length_take_of_le (le_of_lt hk)] at hcount
      set tk : ℤ := ts.getD k 0 with htk
      simp only [rateLimiter, hcount]
      by_cases hcap : k + 2 ≤ RATE_LIMIT
      · have hlt : ¬ RATE_LIMIT ≤ min (1 + k) RATE_LIMIT := by
          simp only [RATE_LIMIT] at hcap ⊢
          omega
        simp [htime, hlt, hcap]
      · have hge : RATE_LIMIT ≤ min (1 + k) RATE_LIMIT := by
          simp only [RATE_LIMIT] at hcap ⊢
          omega
        simp [htime, hge, hcap]

/-- Witness for `C3_fixed_window`: from an empty state, with 150 further
requests all inside the first window, request 100 (index 99) is allowed and
request 101 (index 100) is denied; a first request opens a count-1 window;
an expired window is reset to count 1. -/
theorem C3_fixed_window_witness :
    ((fun _ : String => (none : Option RLEntry)) "a" = none ∧
      (∀ t ∈ List.replicate 150 (0:ℤ), t ≤ 0 + 60000) ∧
      (fun i : String => if i = "b" then some (⟨7, 10⟩ : RLEntry) else none) "b" =
        some ⟨7, 10⟩ ∧ (10:ℤ) < 11) ∧
    rateLimiter (fun _ => none) "a" 0 =
      (true, rlSet (fun _ => none) "a" ⟨1, 0 + 60000⟩) ∧
    rateLimiter (fun i => if i = "b" then some ⟨7, 10⟩ else none) "b" 11 =
      (true, rlSet (fun i => if i = "b" then some ⟨7, 10⟩ else none) "b" ⟨1, 11 + 60000⟩) ∧
    requestAllowed (fun _ => none) "a" (0 :: List.replicate 150 0) 99 =
      decide (99 + 1 ≤ RATE_LIMIT) ∧
    requestAllowed (fun _ => none) "a" (0 :: List.replicate 150 0) 100 =
      decide (100 + 1 ≤ RATE_LIMIT) :=
  ⟨⟨rfl, fun t ht => by rw [List.eq_of_mem_replicate ht]; norm_num, rfl, by norm_num⟩,
    (C3_fixed_window (fun _ => none) "a" 0).1 rfl,
    (C3_fixed_window (fun i => if i = "b" then some ⟨7, 10⟩ else none) "b" 11).2.1
      ⟨7, 10⟩ rfl (by norm_num),
    (C3_fixed_window (fun _ => none) "a" 0).2.2 0 (List.replicate 150 0) rfl
      (fun t ht => by rw [List.eq_of_mem_replicate ht]; norm_num) 99
      (by rw [List.length_cons, List.length_replicate]; norm_num),
    (C3_fixed_window (fun _ => none) "a" 0).2.2 0 (List.replicate 150 0) rfl
      (fun t ht => by rw [List.eq_of_mem_replicate ht]; norm_num) 100
      (by rw [List.length_cons, List.length_replicate]; norm_num)⟩

/-- The rate limiter invariant: every stored count is between 1 and 100. -/
def RLInv (s : RLState) : Prop :=
  ∀ (i : String) (c : ℕ) (r : ℤ), s i = some ⟨c, r⟩ → 1 ≤ c ∧ c ≤ RATE_LIMIT

theorem rlInv_step {s : RLState} (hs : RLInv s) (ip : String) (now : ℤ) :
    RLInv (rateLimiter s ip now).2 := by
  intro i c r hi
  by_cases hiip : i = ip
  · subst hiip
    cases hip : s i with
    | none =>
      simp [rateLimiter, hip, rlSet] at hi
      simp only [RATE_LIMIT]
      omega
    | some e =>
      obtain ⟨ec, er⟩ := e
      have he := hs i ec er hip
      by_cases h1 : er < now
      · simp [rateLimiter, hip, h1, rlSet] at hi
        simp only [RATE_LIMIT] at he ⊢
        omega
      · by_cases h2 : RATE_LIMIT ≤ ec
        · simp [rateLimiter, hip, h1, h2] at hi
          simp only [RATE_LIMIT] at he ⊢
          omega
        · simp [rateLimiter, hip, h1, h2, rlSet] at hi
          simp only [RATE_LIMIT] at he h2 ⊢
          omega
  · have hfr : (rateLimiter s ip now).2 i = s i := by
      unfold rateLimiter
      cases hip : s ip with
      | none => simp [rlSet, hiip]
      | some e =>
        by_cases h1 : e.resetTime < now
        · simp [h1, rlSet, hiip]
        · by_cases h2 : RATE_LIMIT ≤ e.count
          · simp [h1, h2]
          · simp [h1, h2, rlSet, hiip]
    rw [hfr] at hi
    exact hs i c r hi

theorem rlInv_runAll (reqs : List (String × ℤ)) : RLInv (runAll reqs) := by
  have : ∀ (l : List (String × ℤ)) (s : RLState), RLInv s →
      RLInv (l.foldl (fun s req => (rateLimiter s req.1 req.2).2) s) := by
    intro l
    induction l with
    | nil => intro s hs; exact hs
    | cons p l ih =>
      intro s hs
      exact ih _ (rlInv_step hs p.1 p.2)
  exact this reqs (fun _ => none) (by intro i c r h; simp at h)

/-- Claim C10 (confirmed):  A denied request leaves the rate limiter state
completely unchanged: when a client's count is at or above the limit inside
the current window, the middleware returns 429 without modifying that
client's entry or any other entry; consequently (and because increments only
happen strictly below the limit) the stored count of any client, starting
from the empty state, never exceeds 100. -/
theorem C10_denied_request_frame :
    (∀ (s : RLState) (ip : String) (now : ℤ) (e : RLEntry),
      s ip = some e → now ≤ e.resetTime → RATE_LIMIT ≤ e.count →
      rateLimiter s ip now = (false, s)) ∧
    (∀ (reqs : List (String × ℤ)) (ip : String) (c : ℕ) (r : ℤ),
      runAll reqs ip = some ⟨c, r⟩ → c ≤ RATE_LIMIT) := by
  constructor
  · intro s ip now e hip hwin hcap
    simp [rateLimiter, hip, not_lt.mpr hwin, hcap]
  · intro reqs ip c r h
    exact (rlInv_runAll reqs ip c r h).2

/-- Witness for `C10_denied_request_frame`: a client at the cap is denied
with the state returned unchanged, and a concrete run leaves a count `≤ 100`. -/
theorem C10_denied_request_frame_witness :
    ((fun i : String => if i = "a" then some (⟨100, 50⟩ : RLEntry) else none) "a" =
        some ⟨100, 50⟩ ∧ (7:ℤ) ≤ 50 ∧ RATE_LIMIT ≤ 100 ∧
      runAll [("b", 3)] "b" = some ⟨1, 3 + 60000⟩) ∧
    rateLimiter (fun i => if i = "a" then some ⟨100, 50⟩ else none) "a" 7 =
      (false, fun i => if i = "a" then some ⟨100, 50⟩ else none) ∧
    1 ≤ RATE_LIMIT :=
  ⟨⟨rfl, by norm_num, by norm_num [RATE_LIMIT], rfl⟩,
    C10_denied_request_frame.1 (fun i => if i = "a" then some ⟨100, 50⟩ else none)
      "a" 7 ⟨100, 50⟩ rfl (by norm_num) (by norm_num [RATE_LIMIT]),
    C10_denied_request_frame.2 [("b", 3)] "b" 1 (3 + 60000) rfl⟩

/-! ### The static district directory (src/server.js lines 68-84) -/

/-- One entry of `MAHARASHTRA_DISTRICTS`: `{ name, lat, lng, code }`.
Coordinates are the decimal literals of the source, modelled as rationals. -/
structure District where
  name : String
  lat : ℚ
  lng : ℚ
  code : String
  deriving Repr, DecidableEq

/-- The static 15-entry fallback list `MAHARASHTRA_DISTRICTS`
(src/server.js lines 68-84), in its defined order. -/
def MAHARASHTRA_DISTRICTS : List District :=
  [ ⟨"Kolhapur", 16.7050, 74.2433, "KOL"⟩,
    ⟨"Mumbai Suburban", 19.0760, 72.8777, "MUM"⟩,
    ⟨"Pune", 18.5204, 73.8567, "PUN"⟩,
    ⟨"Nagpur", 21.1458, 79.0882, "NAG"⟩,
    ⟨"Nashik", 19.9975, 73.7898, "NAS"⟩,
    ⟨"Aurangabad", 19.8762, 75.3433, "AUR"⟩,
    ⟨"Solapur", 17.6599, 75.9064, "SOL"⟩,
    ⟨"Thane", 19.2183, 72.9781, "THA"⟩,
    ⟨"Ahmednagar", 19.0948, 74.7480, "AHM"⟩,
    ⟨"Satara", 17.6805, 73.9903, "SAT"⟩,
    ⟨"Sangli", 16.8524, 74.5815, "SAN"⟩,
    ⟨"Jalgaon", 21.0077, 75.5626, "JAL"⟩,
    ⟨"Amravati", 20.9320, 77.7523, "AMR"⟩,
    ⟨"Raigad", 18.5204, 73.0169, "RAI"⟩,
    ⟨"Ratnagiri", 16.9902, 73.3120, "RAT"⟩ ]

/-! ### `GET /api/districts` (src/server.js lines 122-134) -/

/-- The `GET /api/districts` handler, as a function of the observed cache
content for key `districts` and the outcome of the storage query
(`.error ()` = the `catch` path).  Returns (HTTP status, response body,
value written back into the cache if any). -/
def districtsHandler (cached : Option (List District))
    (db : Except Unit (List District)) :
    ℕ × List District × Option (List District) :=
  match cached with
  | some ds => (200, ds, none)
  | none =>
    match db with
    | Except.ok rows =>
      let districts := if 0 < rows.length then rows else MAHARASHTRA_DISTRICTS
      (200, districts, some districts)
    | Except.error _ => (200, MAHARASHTRA_DISTRICTS, none)

/-- Claim C5 (confirmed):  With no cached `districts` entry, if the storage
query fails or returns zero rows, `GET /api/districts` responds 200 with
exactly the 15-entry static Maharashtra list, in its defined order. -/
theorem C5_districts_fallback (cached : Option (List District))
    (db : Except Unit (List District))
    (hcache : cached = none) (hdb : db = Except.error () ∨ db = Except.ok []) :
    (districtsHandler cached db).1 = 200 ∧
    (districtsHandler cached db).2.1 = MAHARASHTRA_DISTRICTS ∧
    MAHARASHTRA_DISTRICTS.length = 15 := by
  subst hcache
  rcases hdb with h | h <;> subst h <;>
    exact ⟨rfl, rfl, rfl⟩

/-- Witness for `C5_districts_fallback` on a failed query and on an empty
result set. -/
theorem C5_districts_fallback_witness :
    ((none : Option (List District)) = none ∧
      ((Except.error () : Except Unit (List District)) = Except.error () ∨
        (Except.error () : Except Unit (List District)) = Except.ok [])) ∧
    (districtsHandler none (Except.error ())).1 = 200 ∧
    (districtsHandler none (Except.error ())).2.1 = MAHARASHTRA_DISTRICTS ∧
    MAHARASHTRA_DISTRICTS.length = 15 :=
  ⟨⟨rfl, Or.inl rfl⟩, C5_districts_fallback none (Except.error ()) rfl (Or.inl rfl)⟩

/-! ### `GET /api/performance/:districtCode` (src/server.js lines 167-194) -/

/-- The `GET /api/performance/:districtCode` handler, as a function of the
observed cache content for key `perf_<code>`, the outcome of the storage
query (`SELECT data ... ORDER BY year DESC, month DESC LIMIT 1`, so at most
one row, most recent first), and the current month/year.  Returns
(HTTP status, ten-metric body).  Both the zero-row branch and the `catch`
branch answer 200 with synthetic data. -/
noncomputable def performanceHandler (districtCode : String)
    (cached : Option DistrictData) (db : Except Unit (List DistrictData))
    (nowMonth nowYear : ℕ) : ℕ × DistrictData :=
  match cached with
  | some d => (200, d)
  | none =>
    match db with
    | Except.ok [] => (200, generateDistrictData districtCode nowMonth nowYear)
    | Except.ok (d :: _) => (200, d)
    | Except.error _ => (200, generateDistrictData districtCode nowMonth nowYear)

/-- Claim C6 (confirmed):  With no cached entry for the code, a districtCode
with no stored rows — and likewise a failing storage query — yields a 200
response whose body is `generateDistrictData` applied to that code and the
current month and year (a record structurally containing all ten metrics);
and on *every* input this endpoint answers 200, never 500. -/
theorem C6_performance_synthetic_fallback (districtCode : String)
    (cached : Option DistrictData) (db : Except Unit (List DistrictData))
    (nowMonth nowYear : ℕ) :
    (cached = none → db = Except.ok [] ∨ db = Except.error () →
      performanceHandler districtCode cached db nowMonth nowYear =
        (200, generateDistrictData districtCode nowMonth nowYear)) ∧
    (performanceHandler districtCode cached db nowMonth nowYear).1 = 200 := by
  constructor
  · rintro rfl (rfl | rfl) <;> rfl
  · cases cached with
    | some d => rfl
    | none =>
      cases db with
      | ok rows => cases rows <;> rfl
      | error e => rfl

/-- Witness for `C6_performance_synthetic_fallback` on an unknown code with
an empty result set. -/
theorem C6_performance_synthetic_fallback_witness :
    ((none : Option DistrictData) = none ∧
      ((Except.ok [] : Except Unit (List DistrictData)) = Except.ok [] ∨
        (Except.ok [] : Except Unit (List DistrictData)) = Except.error ())) ∧
    performanceHandler "UNKNOWNCODE" none (Except.ok []) 9 2025 =
      (200, generateDistrictData "UNKNOWNCODE" 9 2025) :=
  ⟨⟨rfl, Or.inl rfl⟩,
    (C6_performance_synthetic_fallback "UNKNOWNCODE" none (Except.ok []) 9 2025).1
      rfl (Or.inl rfl)⟩

/-! ### `GET /api/trends/:districtCode` (src/server.js lines 196-240) -/

/-- One stored `performance` row as read by the trends query:
`SELECT month, year, data`. -/
structure PerfRow where
  month : ℕ
  year : ℕ
  data : DistrictData
  deriving Repr, DecidableEq

/-- The short month names, as produced by
`new Date(y, m).toLocaleString('default', { month: 'short' })` for
`m ∈ [0,11]`, and as hard-coded in the fallback branch
(src/server.js line 221). -/
def monthNames : List String :=
  ["Jan", "Feb", "Mar", "Apr", "May", "Jun",
   "Jul", "Aug", "Sep", "Oct", "Nov", "Dec"]

/-- One element of the trends response. -/
structure TrendEntry where
  month : String
  year : ℕ
  workers : ℤ
  expenditure : ℤ
  works : ℤ
  deriving Repr, DecidableEq

/-- The month/year normalization performed by the JS `Date(year, m, 1)`
constructor for a (possibly negative) month index `m`:
`getMonth() = m mod 12` (floor convention), `getFullYear() = year + ⌊m/12⌋`. -/
def jsDateNorm (year : ℕ) (m : ℤ) : ℕ × ℕ :=
  ((m.emod 12).toNat, ((year : ℤ) + m.ediv 12).toNat)

/-- The row-to-entry mapping of the stored branch
(src/server.js lines 210-216). -/
def toTrendEntry (r : PerfRow) : TrendEntry :=
  { month := monthNames.getD r.month ""
    year := r.year
    workers := r.data.activeWorkers
    expenditure := r.data.totalExpenditure
    works := r.data.completedWorks }

/-- One synthetic fallback entry for month offset `m` relative to year
`nowYear` (src/server.js lines 223-231). -/
noncomputable def syntheticTrendEntry (districtCode : String) (nowYear : ℕ)
    (m : ℤ) : TrendEntry :=
  let d := jsDateNorm nowYear m
  let data := generateDistrictData districtCode d.1 d.2
  { month := monthNames.getD d.1 ""
    year := d.2
    workers := data.activeWorkers
    expenditure := data.totalExpenditure
    works := data.completedWorks }

/-- The synthetic fallback branch (src/server.js lines 219-232): the loop
`for (let i = 6; i >= 0; i--)` pushes the entry for month `nowMonth - i`,
so the `j`-th pushed entry has `i = 6 - j`. -/
noncomputable def syntheticTrends (districtCode : String)
    (nowMonth nowYear : ℕ) : List TrendEntry :=
  (List.range 7).map (fun j : ℕ =>
    syntheticTrendEntry districtCode nowYear ((nowMonth : ℤ) - (6 - (j : ℤ))))

/-- Outcome of `GET /api/trends/:districtCode`: 200 with a list, or the
outer `catch` answering 500. -/
inductive TrendsResult where
  | ok (trends : List TrendEntry)
  | serverError
  deriving Repr, DecidableEq

/-- The HTTP status of a `TrendsResult`. -/
def TrendsResult.status : TrendsResult → ℕ
  | ok _ => 200
  | serverError => 500

/-- The `GET /api/trends/:districtCode` handler (src/server.js
lines 196-240), as a function of the observed cache content for key
`trends_<code>`, the storage query outcome (`ORDER BY year DESC, month DESC
LIMIT 7`: at most 7 rows, most recent first) and the current month/year. -/
noncomputable def trendsHandler (districtCode : String)
    (cached : Option (List TrendEntry)) (db : Except Unit (List PerfRow))
    (nowMonth nowYear : ℕ) : TrendsResult :=
  match cached with
  | some t => TrendsResult.ok t
  | none =>
    match db with
    | Except.ok rows =>
      if 1 ≤ rows.length then TrendsResult.ok ((rows.map toTrendEntry).reverse)
      else TrendsResult.ok (syntheticTrends districtCode nowMonth nowYear)
    | Except.error _ => TrendsResult.serverError

/-- Claim C7 (confirmed):  On a cache miss: with at least one stored row the
response is the up-to-7 most-recent rows mapped and reversed into
oldest-first order (length ≤ 7, and descending input order turns into
ascending output order); with zero stored rows it is exactly the 7 synthetic
entries for the current month and the six preceding ones, oldest first — the
`j`-th entry covers calendar month `12*nowYear + nowMonth - 6 + j`. -/
theorem C7_trends_shape (districtCode : String)
    (cached : Option (List TrendEntry)) (db : Except Unit (List PerfRow))
    (nowMonth nowYear : ℕ) (hcache : cached = none) (hyear : 1 ≤ nowYear) :
    (∀ rows, db = Except.ok rows → 1 ≤ rows.length → rows.length ≤ 7 →
      trendsHandler districtCode cached db nowMonth nowYear =
        TrendsResult.ok ((rows.map toTrendEntry).reverse) ∧
      ((rows.map toTrendEntry).reverse).length ≤ 7 ∧
      (rows.Pairwise (fun a b => b.year < a.year ∨ (b.year = a.year ∧ b.month < a.month)) →
        rows.reverse.Pairwise
          (fun a b => a.year < b.year ∨ (a.year = b.year ∧ a.month < b.month)))) ∧
    (db = Except.ok [] →
      trendsHandler districtCode cached db nowMonth nowYear =
        TrendsResult.ok (syntheticTrends districtCode nowMonth nowYear) ∧
      (syntheticTrends districtCode nowMonth nowYear).length = 7 ∧
      (∀ j : ℕ, j < 7 →
        (syntheticTrends districtCode nowMonth nowYear)[j]? =
          some (syntheticTrendEntry districtCode nowYear
            ((nowMonth : ℤ) - 6 + (j : ℤ))) ∧
        12 * (((jsDateNorm nowYear ((nowMonth : ℤ) - 6 + (j : ℤ))).2 : ℤ)) +
            ((jsDateNorm nowYear ((nowMonth : ℤ) - 6 + (j : ℤ))).1 : ℤ) =
          12 * (nowYear : ℤ) + (nowMonth : ℤ) - 6 + (j : ℤ))) := by
  subst hcache
  constructor
  · intro rows hdb h1 h7
    subst hdb
    refine ⟨by simp [trendsHandler, h1], by simpa using h7, ?_⟩
    intro hdesc
    rw [List.pairwise_reverse]
    exact hdesc
  · intro hdb
    subst hdb
    refine ⟨by simp [trendsHandler],
      by unfold syntheticTrends; rw [List.length_map, List.length_range], ?_⟩
    intro j hj
    constructor
    · have harg : ((nowMonth : ℤ) - (6 - (j : ℤ))) = (nowMonth : ℤ) - 6 + (j : ℤ) := by
        ring
      unfold syntheticTrends
      rw [List.getElem?_map, List.getElem?_range hj, Option.map_some', harg]
    · unfold jsDateNorm
      have h1 : 0 ≤ ((nowMonth : ℤ) - 6 + (j : ℤ)).emod 12 := Int.emod_nonneg _ (by norm_num)
      have h2 : ((nowMonth : ℤ) - 6 + (j : ℤ)).emod 12 < 12 :=
        Int.emod_lt_of_pos _ (by norm_num)
      have h3 : 12 * (((nowMonth : ℤ) - 6 + (j : ℤ)).ediv 12) +
          ((nowMonth : ℤ) - 6 + (j : ℤ)).emod 12 = (nowMonth : ℤ) - 6 + (j : ℤ) :=
        Int.ediv_add_emod _ 12
      omega

/-- Witness for `C7_trends_shape`: a single stored row, and the synthetic
branch on an empty result set. -/
theorem C7_trends_shape_witness :
    ((none : Option (List TrendEntry)) = none ∧ (1 : ℕ) ≤ 2025 ∧
      (Except.ok [(⟨9, 2025, ⟨1, 2, 3, 4, 5, 6, 7, 8, 9, 10⟩⟩ : PerfRow)] :
          Except Unit (List PerfRow)) =
        Except.ok [⟨9, 2025, ⟨1, 2, 3, 4, 5, 6, 7, 8, 9, 10⟩⟩] ∧
      1 ≤ ([(⟨9, 2025, ⟨1, 2, 3, 4, 5, 6, 7, 8, 9, 10⟩⟩ : PerfRow)]).length ∧
      ([(⟨9, 2025, ⟨1, 2, 3, 4, 5, 6, 7, 8, 9, 10⟩⟩ : PerfRow)]).length ≤ 7) ∧
    trendsHandler "PUN" none
        (Except.ok [⟨9, 2025, ⟨1, 2, 3, 4, 5, 6, 7, 8, 9, 10⟩⟩]) 9 2025 =
      TrendsResult.ok
        (([(⟨9, 2025, ⟨1, 2, 3, 4, 5, 6, 7, 8, 9, 10⟩⟩ : PerfRow)].map
          toTrendEntry).reverse) ∧
    trendsHandler "PUN" none (Except.ok []) 9 2025 =
      TrendsResult.ok (syntheticTrends "PUN" 9 2025) ∧
    (syntheticTrends "PUN" 9 2025).length = 7 :=
  ⟨⟨rfl, by norm_num, rfl, by norm_num, by norm_num⟩,
    ((C7_trends_shape "PUN" none
        (Except.ok [⟨9, 2025, ⟨1, 2, 3, 4, 5, 6, 7, 8, 9, 10⟩⟩]) 9 2025 rfl
        (by norm_num)).1 _ rfl (by norm_num) (by norm_num)).1,
    ((C7_trends_shape "PUN" none (Except.ok []) 9 2025 rfl (by norm_num)).2 rfl).1,
    ((C7_trends_shape "PUN" none (Except.ok []) 9 2025 rfl (by norm_num)).2 rfl).2.1⟩

/-! ### The bootstrap routine `initDatabase` (src/server.js lines 267-324) -/

/-- Generic `INSERT ... ON CONFLICT ... DO NOTHING`: append `x` unless some
existing row conflicts with it. -/
def insertIfAbsent {α : Type} (conflict : α → α → Bool) (l : List α) (x : α) :
    List α :=
  if l.any (conflict x) then l else l ++ [x]

theorem any_insertIfAbsent_self {α : Type} (conflict : α → α → Bool)
    (l : List α) (x : α) (hx : conflict x x = true) :
    (insertIfAbsent conflict l x).any (conflict x) = true := by
  unfold insertIfAbsent
  by_cases h : l.any (conflict x) = true
  · simpa [h] using h
  · simp only [h, if_false, Bool.if_false_left]
    simp [List.any_append, hx]

theorem any_insertIfAbsent_mono {α : Type} (conflict : α → α → Bool)
    (l : List α) (x y : α) (h : l.any (conflict y) = true) :
    (insertIfAbsent conflict l x).any (conflict y) = true := by
  unfold insertIfAbsent
  by_cases hc : l.any (conflict x) = true <;> simp [hc, List.any_append, h]

theorem foldl_insertIfAbsent_any {α : Type} (conflict : α → α → Bool)
    (L : List α) :
    ∀ (l : List α) (y : α), l.any (conflict y) = true →
      (L.foldl (insertIfAbsent conflict) l).any (conflict y) = true := by
  induction L with
  | nil => intro l y h; simpa using h
  | cons x L ih =>
    intro l y h
    exact ih _ y (any_insertIfAbsent_mono conflict l x y h)

theorem foldl_insertIfAbsent_mem {α : Type} (conflict : α → α → Bool)
    (L : List α) (hrefl : ∀ x ∈ L, conflict x x = true) :
    ∀ (l : List α) (x : α), x ∈ L →
      (L.foldl (insertIfAbsent conflict) l).any (conflict x) = true := by
  induction L with
  | nil => intro l x hx; cases hx
  | cons a L ih =>
    intro l x hx
    rcases List.mem_cons.mp hx with rfl | hx
    · exact foldl_insertIfAbsent_any conflict L _ x
        (any_insertIfAbsent_self conflict l x (hrefl x (List.mem_cons_self x L)))
    · exact ih (fun z hz => hrefl z (List.mem_cons_of_mem a hz)) _ x hx

theorem foldl_insertIfAbsent_noop {α : Type} (conflict : α → α → Bool)
    (L : List α) :
    ∀ l : List α, (∀ x ∈ L, l.any (conflict x) = true) →
      L.foldl (insertIfAbsent conflict) l = l := by
  induction L with
  | nil => intro l _; rfl
  | cons a L ih =>
    intro l h
    have ha : insertIfAbsent conflict l a = l := by
      unfold insertIfAbsent
      simp [h a (List.mem_cons_self a L)]
    rw [List.foldl_cons, ha]
    exact ih l (fun x hx => h x (List.mem_cons_of_mem a hx))

/-- Folding an insert-if-absent over a fixed list twice is the same as doing
it once. -/
theorem foldl_insertIfAbsent_idem {α : Type} (conflict : α → α → Bool)
    (L : List α) (hrefl : ∀ x ∈ L, conflict x x = true) (l : List α) :
    L.foldl (insertIfAbsent conflict) (L.foldl (insertIfAbsent conflict) l) =
      L.foldl (insertIfAbsent conflict) l :=
  foldl_insertIfAbsent_noop conflict L _
    (fun x hx => foldl_insertIfAbsent_mem conflict L hrefl l x hx)

/-- Nested insert loops flatten to a single fold over the flattened item
list. -/
theorem foldl_nested_insert {α β γ : Type} (f : List α → α → List α)
    (item : β → γ → α) (inner : List γ) (L : List β) :
    ∀ l : List α,
      L.foldl (fun p c => inner.foldl (fun p2 j => f p2 (item c j)) p) l =
        (L.flatMap (fun c => inner.map (item c))).foldl f l := by
  induction L with
  | nil => intro l; rfl
  | cons b L ih =>
    intro l
    rw [List.foldl_cons, List.flatMap_cons, List.foldl_append, List.foldl_map, ih]

/-- A row of the `performance` table as written by the bootstrap backfill. -/
structure PerfDbRow where
  district_code : String
  month : ℕ
  year : ℕ
  data : DistrictData
  deriving Repr, DecidableEq

/-- The modelled database state: the two tables. -/
structure Store where
  districts : List District
  performance : List PerfDbRow
  deriving DecidableEq

/-- The conflict test of `ON CONFLICT (code) DO NOTHING` on `districts`. -/
def districtConflict (d e : District) : Bool := d.code == e.code

/-- The conflict test of `ON CONFLICT (district_code, month, year)` on
`performance`. -/
def perfConflict (r e : PerfDbRow) : Bool :=
  r.district_code == e.district_code && r.month == e.month && r.year == e.year

/-- The backfill row for district `code` at loop index `j` (the source loop
counts `i = 6-j` down from 6 to 0 and targets month `nowMonth - i`). -/
noncomputable def backfillRow (code : String) (nowMonth nowYear : ℕ) (j : ℕ) :
    PerfDbRow :=
  let d := jsDateNorm nowYear ((nowMonth : ℤ) - (6 - (j : ℤ)))
  ⟨code, d.1, d.2, generateDistrictData code d.1 d.2⟩

/-- Embeds `initDatabase()` (src/server.js lines 267-324) as a transformation of the
store at a fixed current (month, year).  `CREATE TABLE IF NOT EXISTS` is a
no-op on the modelled state; each `MAHARASHTRA_DISTRICTS` entry is inserted
with `ON CONFLICT (code) DO NOTHING`; then for every code in the `districts`
table, performance rows for the current month and the six preceding ones are
inserted with `ON CONFLICT (district_code, month, year) DO NOTHING`. -/
noncomputable def initDatabase (s : Store) (nowMonth nowYear : ℕ) : Store :=
  let districts1 := MAHARASHTRA_DISTRICTS.foldl (insertIfAbsent districtConflict)
    s.districts
  let performance1 := (districts1.map District.code).foldl
    (fun p code =>
      (List.range 7).foldl
        (fun p2 j => insertIfAbsent perfConflict p2 (backfillRow code nowMonth nowYear j))
        p)
    s.performance
  ⟨districts1, performance1⟩

/-- Claim C8 (confirmed):  The bootstrap routine is idempotent on the store:
district inserts are skipped when the code already exists and backfill
performance inserts are skipped when the `(district_code, month, year)`
period is already populated, so a second run of `initDatabase` over the
state left by a first run changes nothing. -/
theorem initDatabase_flat (s : Store) (nowMonth nowYear : ℕ) :
    initDatabase s nowMonth nowYear =
      ⟨MAHARASHTRA_DISTRICTS.foldl (insertIfAbsent districtConflict) s.districts,
        (((MAHARASHTRA_DISTRICTS.foldl (insertIfAbsent districtConflict)
              s.districts).map District.code).flatMap
            (fun code => (List.range 7).map (backfillRow code nowMonth nowYear))).foldl
          (insertIfAbsent perfConflict) s.performance⟩ := by
  unfold initDatabase
  dsimp only
  rw [foldl_nested_insert (insertIfAbsent perfConflict)
    (fun code j => backfillRow code nowMonth nowYear j) (List.range 7)]

theorem C8_initDatabase_idempotent (s : Store) (nowMonth nowYear : ℕ) :
    initDatabase (initDatabase s nowMonth nowYear) nowMonth nowYear =
      initDatabase s nowMonth nowYear := by
  rw [initDatabase_flat s nowMonth nowYear, initDatabase_flat _ nowMonth nowYear]
  have hd : MAHARASHTRA_DISTRICTS.foldl (insertIfAbsent districtConflict)
      (MAHARASHTRA_DISTRICTS.foldl (insertIfAbsent districtConflict) s.districts) =
      MAHARASHTRA_DISTRICTS.foldl (insertIfAbsent districtConflict) s.districts :=
    foldl_insertIfAbsent_idem districtConflict MAHARASHTRA_DISTRICTS
      (fun x _ => by simp [districtConflict]) s.districts
  rw [Store.mk.injEq]
  dsimp only
  rw [hd]
  exact ⟨rfl, foldl_insertIfAbsent_idem perfConflict _
    (fun x _ => by simp [perfConflict]) s.performance⟩

/-! ### The distance calculator `getDistance` (src/server.js lines 87-96) -/

/-- JS `Math.atan2(y, x)` (quadrant-aware arctangent), modelled with exact
real arithmetic.  Only the `0 < x` branch is exercised by `getDistance`. -/
noncomputable def atan2 (y x : ℝ) : ℝ :=
  if 0 < x then Real.arctan (y / x)
  else if x < 0 then
    (if 0 ≤ y then Real.arctan (y / x) + Real.pi else Real.arctan (y / x) - Real.pi)
  else
    (if 0 < y then Real.pi / 2 else if y < 0 then -(Real.pi / 2) else 0)

/-- The haversine term
`a = sin(dLat/2)*sin(dLat/2) + cos(lat1·π/180)*cos(lat2·π/180)*sin(dLng/2)*sin(dLng/2)`
of `getDistance` (src/server.js lines 89-93). -/
noncomputable def haversineA (lat1 lng1 lat2 lng2 : ℝ) : ℝ :=
  let dLat := (lat2 - lat1) * Real.pi / 180
  let dLng := (lng2 - lng1) * Real.pi / 180
  Real.sin (dLat / 2) * Real.sin (dLat / 2) +
    Real.cos (lat1 * Real.pi / 180) * Real.cos (lat2 * Real.pi / 180) *
      Real.sin (dLng / 2) * Real.sin (dLng / 2)

/-- Embeds `getDistance(lat1, lng1, lat2, lng2)` (src/server.js lines 87-96):
`R * c` with `R = 6371` and `c = 2 * atan2(sqrt(a), sqrt(1-a))`. -/
noncomputable def getDistance (lat1 lng1 lat2 lng2 : ℝ) : ℝ :=
  let a := haversineA lat1 lng1 lat2 lng2
  let c := 2 * atan2 (Real.sqrt a) (Real.sqrt (1 - a))
  6371 * c

/-! ### `POST /api/location-to-district` (src/server.js lines 136-165) -/

/-- JS falsiness of a request-body coordinate (`!lat`): the field is absent
(`undefined`) or the number 0.  (JSON cannot carry `NaN`/`Infinity`;
non-numeric body fields are outside the modelled domain.) -/
def falsy : Option ℚ → Bool
  | none => true
  | some q => q == 0

/-- Outcome of `POST /api/location-to-district`: 400 for a falsy coordinate,
200 with the nearest district (or `null` for an empty active set), 500 from
the `catch` branch. -/
inductive LocationResult where
  | badRequest
  | ok (district : Option District)
  | serverError
  deriving Repr, DecidableEq

/-- The HTTP status of a `LocationResult`. -/
def LocationResult.status : LocationResult → ℕ
  | badRequest => 400
  | ok _ => 200
  | serverError => 500

/-- The linear scan of src/server.js lines 153-159, folding
`(nearestDistrict, minDistance)`; the `none` accumulator models the initial
`nearestDistrict = null, minDistance = Infinity` (any first distance wins
against `Infinity`). -/
noncomputable def minFold (f : District → ℝ) (districts : List District) :
    Option (District × ℝ) :=
  districts.foldl
    (fun acc d =>
      match acc with
      | none => some (d, f d)
      | some (best, m) => if f d < m then some (d, f d) else some (best, m))
    none

/-- The nearest-district computation of the handler: scan and return the
kept district. -/
noncomputable def nearestScan (lat lng : ℚ) (districts : List District) :
    Option District :=
  (minFold (fun d => getDistance (lat : ℝ) (lng : ℝ) (d.lat : ℝ) (d.lng : ℝ))
    districts).map Prod.fst

/-- Embeds `POST /api/location-to-district` (src/server.js lines 136-165), as a
function of the body fields and the observed cache/storage outcomes. -/
noncomputable def locationHandler (lat lng : Option ℚ)
    (cached : Option (List District)) (db : Except Unit (List District)) :
    LocationResult :=
  if falsy lat || falsy lng then LocationResult.badRequest
  else
    match cached with
    | some ds => LocationResult.ok (nearestScan (lat.getD 0) (lng.getD 0) ds)
    | none =>
      match db with
      | Except.ok rows =>
        LocationResult.ok (nearestScan (lat.getD 0) (lng.getD 0)
          (if 0 < rows.length then rows else MAHARASHTRA_DISTRICTS))
      | Except.error _ => LocationResult.serverError

/-- Claim C2 (counterexample):  The claim that 400 is returned *exactly* when a
coordinate is missing is false: `{lat: 0, lng: 73.85}` carries both
coordinates, yet the JS truthiness test `!lat` rejects the present value `0`
and the handler answers 400. -/
theorem C2_counterexample :
    (some (0 : ℚ)).isSome = true ∧ (some (73.85 : ℚ)).isSome = true ∧
    locationHandler (some 0) (some 73.85) none (Except.ok MAHARASHTRA_DISTRICTS) =
      LocationResult.badRequest := by
  refine ⟨rfl, rfl, ?_⟩
  simp [locationHandler, falsy]

/-- Claim C2 (amended):  `POST /api/location-to-district` answers 400 exactly
when `lat` or `lng` is absent *or JS-falsy (the number 0)*; with both
coordinates present and nonzero it never answers 400 but proceeds to the
nearest-district computation. -/
theorem C2_badRequest_iff (lat lng : Option ℚ)
    (cached : Option (List District)) (db : Except Unit (List District)) :
    (locationHandler lat lng cached db = LocationResult.badRequest ↔
      (lat = none ∨ lat = some 0 ∨ lng = none ∨ lng = some 0)) ∧
    (∀ a b : ℚ, lat = some a → lng = some b → a ≠ 0 → b ≠ 0 →
      ∀ ds, cached = some ds →
        locationHandler lat lng cached db =
          LocationResult.ok (nearestScan a b ds)) := by
  have hfalsy : ∀ o : Option ℚ, falsy o = true ↔ (o = none ∨ o = some 0) := by
    intro o
    cases o with
    | none => simp [falsy]
    | some q => simp [falsy]
  constructor
  · constructor
    · intro h
      by_cases hg : (falsy lat || falsy lng) = true
      · rcases Bool.or_eq_true_iff.mp hg with h1 | h1
        · rcases (hfalsy lat).mp h1 with h2 | h2
          · exact Or.inl h2
          · exact Or.inr (Or.inl h2)
        · rcases (hfalsy lng).mp h1 with h2 | h2
          · exact Or.inr (Or.inr (Or.inl h2))
          · exact Or.inr (Or.inr (Or.inr h2))
      · exfalso
        unfold locationHandler at h
        rw [if_neg (by simpa using hg)] at h
        cases cached with
        | some ds => simp at h
        | none =>
          cases db with
          | ok rows => simp at h
          | error e => simp at h
    · intro hcase
      have hg : (falsy lat || falsy lng) = true := by
        rcases hcase with h | h | h | h
        · exact Bool.or_eq_true_iff.mpr (Or.inl ((hfalsy lat).mpr (Or.inl h)))
        · exact Bool.or_eq_true_iff.mpr (Or.inl ((hfalsy lat).mpr (Or.inr h)))
        · exact Bool.or_eq_true_iff.mpr (Or.inr ((hfalsy lng).mpr (Or.inl h)))
        · exact Bool.or_eq_true_iff.mpr (Or.inr ((hfalsy lng).mpr (Or.inr h)))
      unfold locationHandler
      rw [if_pos (by simpa using hg)]
  · rintro a b rfl rfl ha hb ds rfl
    have hga : falsy (some a) = false := by
      simp [falsy, ha]
    have hgb : falsy (some b) = false := by
      simp [falsy, hb]
    unfold locationHandler
    rw [hga, hgb]
    simp

/-- Witness for `C2_badRequest_iff` at `{lat: 18.52, lng: 73.85}` with a
cached district list. -/
theorem C2_badRequest_iff_witness :
    ((some (18.52 : ℚ) = some 18.52) ∧ (some (73.85 : ℚ) = some 73.85) ∧
      (18.52 : ℚ) ≠ 0 ∧ (73.85 : ℚ) ≠ 0 ∧
      (some MAHARASHTRA_DISTRICTS = some MAHARASHTRA_DISTRICTS)) ∧
    locationHandler (some 18.52) (some 73.85) (some MAHARASHTRA_DISTRICTS)
        (Except.ok []) =
      LocationResult.ok (nearestScan 18.52 73.85 MAHARASHTRA_DISTRICTS) :=
  ⟨⟨rfl, rfl, by norm_num, by norm_num, rfl⟩,
    (C2_badRequest_iff (some 18.52) (some 73.85) (some MAHARASHTRA_DISTRICTS)
        (Except.ok [])).2 18.52 73.85 rfl rfl (by norm_num) (by norm_num)
      MAHARASHTRA_DISTRICTS rfl⟩

/-! ### Correctness of the nearest-district scan -/

theorem minFold_go (f : District → ℝ) :
    ∀ (l : List District) (b : District),
      ∃ d, l.foldl
          (fun acc e =>
            match acc with
            | none => some (e, f e)
            | some (best, m) => if f e < m then some (e, f e) else some (best, m))
          (some (b, f b)) = some (d, f d) ∧
        (d = b ∨ d ∈ l) ∧ f d ≤ f b ∧ ∀ e ∈ l, f d ≤ f e := by
  intro l
  induction l with
  | nil =>
    intro b
    exact ⟨b, rfl, Or.inl rfl, le_refl _, by intro e he; cases he⟩
  | cons e l ih =>
    intro b
    by_cases h : f e < f b
    · obtain ⟨d, hfold, hmem, hle, hall⟩ := ih e
      refine ⟨d, ?_, ?_, ?_, ?_⟩
      · rw [List.foldl_cons]
        simpa [h] using hfold
      · rcases hmem with rfl | hd
        · exact Or.inr (List.mem_cons_self _ _)
        · exact Or.inr (List.mem_cons_of_mem e hd)
      · exact le_of_lt (lt_of_le_of_lt hle h)
      · intro x hx
        rcases List.mem_cons.mp hx with rfl | hx
        · exact hle
        · exact hall x hx
    · obtain ⟨d, hfold, hmem, hle, hall⟩ := ih b
      refine ⟨d, ?_, ?_, ?_, ?_⟩
      · rw [List.foldl_cons]
        simpa [h] using hfold
      · rcases hmem with rfl | hd
        · exact Or.inl rfl
        · exact Or.inr (List.mem_cons_of_mem e hd)
      · exact hle
      · intro x hx
        rcases List.mem_cons.mp hx with rfl | hx
        · exact le_trans hle (not_lt.mp h)
        · exact hall x hx

theorem minFold_spec (f : District → ℝ) (l : List District) (hne : l ≠ []) :
    ∃ d, minFold f l = some (d, f d) ∧ d ∈ l ∧ ∀ e ∈ l, f d ≤ f e := by
  match l with
  | [] => exact absurd rfl hne
  | b :: t =>
    obtain ⟨d, hfold, hmem, hle, hall⟩ := minFold_go f t b
    refine ⟨d, ?_, ?_, ?_⟩
    · unfold minFold
      rw [List.foldl_cons]
      exact hfold
    · rcases hmem with h | h
      · rw [h]; exact List.mem_cons_self _ _
      · exact List.mem_cons_of_mem b h
    · intro e he
      rcases List.mem_cons.mp he with h | h
      · rw [h]; exact hle
      · exact hall e h

/-- If `x` is the unique strict minimizer, the scan returns `x`. -/
theorem minFold_unique (f : District → ℝ) (l : List District) (x : District)
    (hx : x ∈ l) (hmin : ∀ y ∈ l, y ≠ x → f x < f y) :
    minFold f l = some (x, f x) := by
  obtain ⟨d, hfold, hdmem, hall⟩ := minFold_spec f l (List.ne_nil_of_mem hx)
  by_cases hdx : d = x
  · rw [hfold, hdx]
  · exact absurd (hall x hx) (not_le.mpr (hmin d hdmem hdx))

theorem nearestScan_spec (lat lng : ℚ) (districts : List District)
    (hne : districts ≠ []) :
    ∃ d, nearestScan lat lng districts = some d ∧ d ∈ districts ∧
      ∀ e ∈ districts,
        getDistance (lat : ℝ) (lng : ℝ) (d.lat : ℝ) (d.lng : ℝ) ≤
          getDistance (lat : ℝ) (lng : ℝ) (e.lat : ℝ) (e.lng : ℝ) := by
  obtain ⟨d, hfold, hmem, hall⟩ :=
    minFold_spec (fun d => getDistance (lat : ℝ) (lng : ℝ) (d.lat : ℝ) (d.lng : ℝ))
      districts hne
  exact ⟨d, by unfold nearestScan; rw [hfold]; rfl, hmem, hall⟩

/-! ### Numeric bounds for the haversine comparison -/

theorem sin_sq_le_sq (x : ℝ) : Real.sin x ^ 2 ≤ x ^ 2 := by
  have key : ∀ y : ℝ, 0 ≤ y → Real.sin y ^ 2 ≤ y ^ 2 := by
    intro y hy
    rcases le_or_lt y 1 with h1 | h1
    · have hs0 : 0 ≤ Real.sin y :=
        Real.sin_nonneg_of_nonneg_of_le_pi hy (by nlinarith [Real.pi_gt_three])
      have hsy : Real.sin y ≤ y := by
        rcases eq_or_lt_of_le hy with h | h
        · rw [← h]; simp
        · exact le_of_lt (Real.sin_lt h)
      nlinarith
    · have hs1 : Real.sin y ≤ 1 := Real.sin_le_one y
      have hs2 : -1 ≤ Real.sin y := Real.neg_one_le_sin y
      nlinarith
  rcases le_or_lt 0 x with hx | hx
  · exact key x hx
  · have h := key (-x) (by linarith)
    rw [Real.sin_neg] at h
    nlinarith [h]

theorem sinsq_half_ge {u c : ℝ} (hc : 0 ≤ c) (h1 : c * 360 ≤ |u| * 3.139)
    (h2 : |u| ≤ 6) : c ^ 2 ≤ Real.sin (u * Real.pi / 360) ^ 2 := by
  have hπl : (3.141592 : ℝ) < Real.pi := Real.pi_gt_d6
  have hπu : Real.pi < 3.141593 := Real.pi_lt_d6
  have habs : Real.sin (u * Real.pi / 360) ^ 2 = Real.sin (|u| * Real.pi / 360) ^ 2 := by
    rcases abs_cases u with ⟨h, _⟩ | ⟨h, _⟩
    · rw [h]
    · rw [h]
      have hneg : -u * Real.pi / 360 = -(u * Real.pi / 360) := by ring
      rw [hneg, Real.sin_neg]
      ring
  rw [habs]
  rcases eq_or_lt_of_le (abs_nonneg u) with h0 | h0
  · have hc0 : c = 0 := by nlinarith
    rw [hc0]
    simpa using sq_nonneg (Real.sin (|u| * Real.pi / 360))
  · set x := |u| * Real.pi / 360 with hxdef
    have hx0 : 0 < x := by
      rw [hxdef]
      have : (0:ℝ) < Real.pi := by linarith
      positivity
  -- continue
    have hXle : x ≤ 0.0524 := by rw [hxdef]; nlinarith [abs_nonneg u]
    have hxu : x ≤ 1 := by linarith
    have hxlow : |u| * 3.141592 / 360 ≤ x := by
      rw [hxdef]
      nlinarith [abs_nonneg u]
    have hx2 : x ^ 2 ≤ 0.0028 := by nlinarith
    have hcube : x ^ 3 / 4 ≤ x * 0.0007 := by nlinarith
    have hsin := Real.sin_gt_sub_cube hx0 hxu
    have hcx : c ≤ x - x * 0.0007 := by nlinarith [abs_nonneg u]
    have hcs : c ≤ Real.sin x := by linarith
    nlinarith [hcs, hc]

theorem cos_deg_ge {l : ℝ} (h : |l| ≤ 22) :
    (0.92 : ℝ) ≤ Real.cos (l * Real.pi / 180) := by
  have hπl : (3.141592 : ℝ) < Real.pi := Real.pi_gt_d6
  have hπu : Real.pi < 3.141593 := Real.pi_lt_d6
  have hb := Real.one_sub_sq_div_two_le_cos (x := l * Real.pi / 180)
  have hsq : (l * Real.pi / 180) ^ 2 ≤ 0.1475 := by
    have h1 : |l| * Real.pi / 180 ≤ 22 * 3.141593 / 180 := by
      nlinarith [abs_nonneg l]
    have h2 : (l * Real.pi / 180) ^ 2 = (|l| * Real.pi / 180) ^ 2 := by
      rcases abs_cases l with ⟨ha, _⟩ | ⟨ha, _⟩ <;> rw [ha] <;> ring
    rw [h2]
    nlinarith [abs_nonneg l, mul_nonneg (mul_nonneg (abs_nonneg l) (by linarith : (0:ℝ) ≤ Real.pi)) (by norm_num : (0:ℝ) ≤ 1/180)]
  nlinarith [hb, hsq]

theorem haversineA_eq (lat1 lng1 lat2 lng2 : ℝ) :
    haversineA lat1 lng1 lat2 lng2 =
      Real.sin ((lat2 - lat1) * Real.pi / 360) ^ 2 +
        Real.cos (lat1 * Real.pi / 180) * Real.cos (lat2 * Real.pi / 180) *
          Real.sin ((lng2 - lng1) * Real.pi / 360) ^ 2 := by
  unfold haversineA
  dsimp only
  have h1 : (lat2 - lat1) * Real.pi / 180 / 2 = (lat2 - lat1) * Real.pi / 360 := by ring
  have h2 : (lng2 - lng1) * Real.pi / 180 / 2 = (lng2 - lng1) * Real.pi / 360 := by ring
  rw [h1, h2]
  ring

theorem haversineA_nonneg {lat1 lng1 lat2 lng2 : ℝ}
    (h1 : |lat1| ≤ 22) (h2 : |lat2| ≤ 22) :
    0 ≤ haversineA lat1 lng1 lat2 lng2 := by
  rw [haversineA_eq]
  have c1 := cos_deg_ge h1
  have c2 := cos_deg_ge h2
  have p : 0 ≤ Real.cos (lat1 * Real.pi / 180) * Real.cos (lat2 * Real.pi / 180) *
      Real.sin ((lng2 - lng1) * Real.pi / 360) ^ 2 :=
    mul_nonneg (mul_nonneg (by linarith) (by linarith)) (sq_nonneg _)
  linarith [sq_nonneg (Real.sin ((lat2 - lat1) * Real.pi / 360))]

theorem haversineA_le {lat1 lng1 lat2 lng2 bLat bLng : ℝ}
    (h1 : |lat2 - lat1| ≤ bLat) (h2 : |lng2 - lng1| ≤ bLng)
    (hc1 : |lat1| ≤ 22) (hc2 : |lat2| ≤ 22) :
    haversineA lat1 lng1 lat2 lng2 ≤
      (bLat * 3.15 / 360) ^ 2 + (bLng * 3.15 / 360) ^ 2 := by
  have hπu : Real.pi < 3.141593 := Real.pi_lt_d6
  have hπl : (3.141592 : ℝ) < Real.pi := Real.pi_gt_d6
  rw [haversineA_eq]
  have s1 := sin_sq_le_sq ((lat2 - lat1) * Real.pi / 360)
  have s2 := sin_sq_le_sq ((lng2 - lng1) * Real.pi / 360)
  have hb1 : ((lat2 - lat1) * Real.pi / 360) ^ 2 ≤ (bLat * 3.15 / 360) ^ 2 := by
    have ha : ((lat2 - lat1) * Real.pi / 360) ^ 2 = (|lat2 - lat1| * Real.pi / 360) ^ 2 := by
      rcases abs_cases (lat2 - lat1) with ⟨ha, _⟩ | ⟨ha, _⟩ <;> rw [ha] <;> ring
    rw [ha]
    have hble : |lat2 - lat1| * Real.pi / 360 ≤ bLat * 3.15 / 360 := by
      nlinarith [abs_nonneg (lat2 - lat1)]
    nlinarith [abs_nonneg (lat2 - lat1),
      mul_nonneg (mul_nonneg (abs_nonneg (lat2 - lat1)) (by linarith : (0:ℝ) ≤ Real.pi)) (by norm_num : (0:ℝ) ≤ 1/360)]
  have hb2 : ((lng2 - lng1) * Real.pi / 360) ^ 2 ≤ (bLng * 3.15 / 360) ^ 2 := by
    have ha : ((lng2 - lng1) * Real.pi / 360) ^ 2 = (|lng2 - lng1| * Real.pi / 360) ^ 2 := by
      rcases abs_cases (lng2 - lng1) with ⟨ha, _⟩ | ⟨ha, _⟩ <;> rw [ha] <;> ring
    rw [ha]
    have hble : |lng2 - lng1| * Real.pi / 360 ≤ bLng * 3.15 / 360 := by
      nlinarith [abs_nonneg (lng2 - lng1)]
    nlinarith [abs_nonneg (lng2 - lng1),
      mul_nonneg (mul_nonneg (abs_nonneg (lng2 - lng1)) (by linarith : (0:ℝ) ≤ Real.pi)) (by norm_num : (0:ℝ) ≤ 1/360)]
  have c1 := cos_deg_ge hc1
  have c2 := cos_deg_ge hc2
  have cu1 := Real.cos_le_one (lat1 * Real.pi / 180)
  have cu2 := Real.cos_le_one (lat2 * Real.pi / 180)
  have hcc1 : Real.cos (lat1 * Real.pi / 180) * Real.cos (lat2 * Real.pi / 180) ≤ 1 :=
    mul_le_one cu1 (by linarith) cu2
  have hccm : Real.cos (lat1 * Real.pi / 180) * Real.cos (lat2 * Real.pi / 180) *
      Real.sin ((lng2 - lng1) * Real.pi / 360) ^ 2 ≤
      Real.sin ((lng2 - lng1) * Real.pi / 360) ^ 2 := by
    nlinarith [sq_nonneg (Real.sin ((lng2 - lng1) * Real.pi / 360))]
  linarith

theorem haversineA_ge_dLat {lat1 lng1 lat2 lng2 c : ℝ} (hc : 0 ≤ c)
    (h1 : c * 360 ≤ |lat2 - lat1| * 3.139) (h2 : |lat2 - lat1| ≤ 6)
    (hc1 : |lat1| ≤ 22) (hc2 : |lat2| ≤ 22) :
    c ^ 2 ≤ haversineA lat1 lng1 lat2 lng2 := by
  rw [haversineA_eq]
  have hs := sinsq_half_ge hc h1 h2
  have c1 := cos_deg_ge hc1
  have c2 := cos_deg_ge hc2
  have p : 0 ≤ Real.cos (lat1 * Real.pi / 180) * Real.cos (lat2 * Real.pi / 180) *
      Real.sin ((lng2 - lng1) * Real.pi / 360) ^ 2 :=
    mul_nonneg (mul_nonneg (by linarith) (by linarith)) (sq_nonneg _)
  linarith

theorem haversineA_ge_dLng {lat1 lng1 lat2 lng2 c : ℝ} (hc : 0 ≤ c)
    (h1 : c * 360 ≤ |lng2 - lng1| * 3.139) (h2 : |lng2 - lng1| ≤ 6)
    (hc1 : |lat1| ≤ 22) (hc2 : |lat2| ≤ 22) :
    (0.84 : ℝ) * c ^ 2 ≤ haversineA lat1 lng1 lat2 lng2 := by
  rw [haversineA_eq]
  have hs := sinsq_half_ge hc h1 h2
  have c1 := cos_deg_ge hc1
  have c2 := cos_deg_ge hc2
  have hccb : (0.84 : ℝ) ≤ Real.cos (lat1 * Real.pi / 180) * Real.cos (lat2 * Real.pi / 180) := by
    nlinarith
  have hprod : (0.84 : ℝ) * c ^ 2 ≤
      Real.cos (lat1 * Real.pi / 180) * Real.cos (lat2 * Real.pi / 180) *
        Real.sin ((lng2 - lng1) * Real.pi / 360) ^ 2 :=
    mul_le_mul hccb hs (sq_nonneg c) (by linarith)
  linarith [sq_nonneg (Real.sin ((lat2 - lat1) * Real.pi / 360))]

theorem getDistance_eq (lat1 lng1 lat2 lng2 : ℝ) :
    getDistance lat1 lng1 lat2 lng2 =
      6371 * (2 * atan2 (Real.sqrt (haversineA lat1 lng1 lat2 lng2))
        (Real.sqrt (1 - haversineA lat1 lng1 lat2 lng2))) := rfl

theorem dist_mono {a1 a2 : ℝ} (h0 : 0 ≤ a1) (h12 : a1 < a2) (h2 : a2 ≤ 1/2) :
    6371 * (2 * atan2 (Real.sqrt a1) (Real.sqrt (1 - a1))) <
      6371 * (2 * atan2 (Real.sqrt a2) (Real.sqrt (1 - a2))) := by
  have h1a : (0:ℝ) < 1 - a1 := by linarith
  have h2a : (0:ℝ) < 1 - a2 := by linarith
  have s1 : 0 < Real.sqrt (1 - a1) := Real.sqrt_pos.mpr h1a
  have s2 : 0 < Real.sqrt (1 - a2) := Real.sqrt_pos.mpr h2a
  rw [atan2, atan2, if_pos s1, if_pos s2]
  have ha2 : 0 < a2 := lt_of_le_of_lt h0 h12
  have hs12 : Real.sqrt a1 < Real.sqrt a2 := Real.sqrt_lt_sqrt h0 h12
  have hsd : Real.sqrt (1 - a2) < Real.sqrt (1 - a1) :=
    Real.sqrt_lt_sqrt (le_of_lt h2a) (by linarith)
  have hratio : Real.sqrt a1 / Real.sqrt (1 - a1) < Real.sqrt a2 / Real.sqrt (1 - a2) := by
    have step1 : Real.sqrt a1 / Real.sqrt (1 - a1) < Real.sqrt a2 / Real.sqrt (1 - a1) :=
      (div_lt_div_iff_of_pos_right s1).mpr hs12
    have step2 : Real.sqrt a2 / Real.sqrt (1 - a1) ≤ Real.sqrt a2 / Real.sqrt (1 - a2) := by
      apply div_le_div_of_nonneg_left (Real.sqrt_nonneg a2) s2 hsd.le
    linarith
  have := Real.arctan_strictMono hratio
  linarith

theorem pune_aval_lt : haversineA 18.52 73.85 18.5204 73.8567 < 1/100000 := by
  have h := @haversineA_le 18.52 73.85 18.5204 73.8567 0.0004 0.0067
    (by rw [show |(18.5204:ℝ) - 18.52| = 0.0004 from by norm_num])
    (by rw [show |(73.8567:ℝ) - 73.85| = 0.0067 from by norm_num])
    (by rw [show |(18.52:ℝ)| = 18.52 from by norm_num]; norm_num)
    (by rw [show |(18.5204:ℝ)| = 18.5204 from by norm_num]; norm_num)
  calc haversineA 18.52 73.85 18.5204 73.8567 ≤
      (0.0004 * 3.15 / 360) ^ 2 + (0.0067 * 3.15 / 360) ^ 2 := h
    _ < 1/100000 := by norm_num

theorem aval_le_half {lat2 lng2 : ℝ}
    (h1 : |lat2 - 18.52| ≤ 6) (h2 : |lng2 - 73.85| ≤ 6) (h3 : |lat2| ≤ 22) :
    haversineA 18.52 73.85 lat2 lng2 ≤ 1/2 := by
  have h := @haversineA_le 18.52 73.85 lat2 lng2 6 6 h1 h2
    (by rw [show |(18.52:ℝ)| = 18.52 from by norm_num]; norm_num) h3
  calc haversineA 18.52 73.85 lat2 lng2 ≤
      (6 * 3.15 / 360) ^ 2 + (6 * 3.15 / 360) ^ 2 := h
    _ ≤ 1/2 := by norm_num

theorem aval_ge_eps_dLat {lat2 lng2 : ℝ}
    (h1 : (1.728 : ℝ) ≤ |lat2 - 18.52| * 3.139) (h2 : |lat2 - 18.52| ≤ 6)
    (h3 : |lat2| ≤ 22) :
    1/100000 ≤ haversineA 18.52 73.85 lat2 lng2 := by
  have h := @haversineA_ge_dLat 18.52 73.85 lat2 lng2 0.0048 (by norm_num)
    (by rw [show (0.0048:ℝ) * 360 = 1.728 from by norm_num]; exact h1) h2
    (by rw [show |(18.52:ℝ)| = 18.52 from by norm_num]; norm_num) h3
  calc (1/100000 : ℝ) ≤ 0.0048 ^ 2 := by norm_num
    _ ≤ haversineA 18.52 73.85 lat2 lng2 := h

theorem pune_dist_lt (lat2 lng2 : ℝ)
    (hA : 1/100000 ≤ haversineA 18.52 73.85 lat2 lng2)
    (hU : haversineA 18.52 73.85 lat2 lng2 ≤ 1/2) :
    getDistance 18.52 73.85 18.5204 73.8567 < getDistance 18.52 73.85 lat2 lng2 := by
  rw [getDistance_eq, getDistance_eq]
  exact dist_mono
    (haversineA_nonneg (by rw [show |(18.52:ℝ)| = 18.52 from by norm_num]; norm_num)
      (by rw [show |(18.5204:ℝ)| = 18.5204 from by norm_num]; norm_num))
    (lt_of_lt_of_le pune_aval_lt hA) hU

theorem dist_lt_KOL :
    getDistance 18.52 73.85 18.5204 73.8567 < getDistance 18.52 73.85 16.7050 74.2433 :=
  pune_dist_lt _ _
    (aval_ge_eps_dLat
      (by rw [show |(16.7050:ℝ) - 18.52| = 1.815 from by norm_num]; norm_num)
      (by rw [show |(16.7050:ℝ) - 18.52| = 1.815 from by norm_num]; norm_num)
      (by rw [show |(16.7050:ℝ)| = 16.7050 from by norm_num]; norm_num))
    (aval_le_half
      (by rw [show |(16.7050:ℝ) - 18.52| = 1.815 from by norm_num]; norm_num)
      (by rw [show |(74.2433:ℝ) - 73.85| = 0.3933 from by norm_num]; norm_num)
      (by rw [show |(16.7050:ℝ)| = 16.7050 from by norm_num]; norm_num))

theorem dist_lt_MUM :
    getDistance 18.52 73.85 18.5204 73.8567 < getDistance 18.52 73.85 19.0760 72.8777 :=
  pune_dist_lt _ _
    (aval_ge_eps_dLat
      (by rw [show |(19.0760:ℝ) - 18.52| = 0.5560 from by norm_num]; norm_num)
      (by rw [show |(19.0760:ℝ) - 18.52| = 0.5560 from by norm_num]; norm_num)
      (by rw [show |(19.0760:ℝ)| = 19.0760 from by norm_num]; norm_num))
    (aval_le_half
      (by rw [show |(19.0760:ℝ) - 18.52| = 0.5560 from by norm_num]; norm_num)
      (by rw [show |(72.8777:ℝ) - 73.85| = 0.9723 from by norm_num]; norm_num)
      (by rw [show |(19.0760:ℝ)| = 19.0760 from by norm_num]; norm_num))

theorem dist_lt_NAG :
    getDistance 18.52 73.85 18.5204 73.8567 < getDistance 18.52 73.85 21.1458 79.0882 :=
  pune_dist_lt _ _
    (aval_ge_eps_dLat
      (by rw [show |(21.1458:ℝ) - 18.52| = 2.6258 from by norm_num]; norm_num)
      (by rw [show |(21.1458:ℝ) - 18.52| = 2.6258 from by norm_num]; norm_num)
      (by rw [show |(21.1458:ℝ)| = 21.1458 from by norm_num]; norm_num))
    (aval_le_half
      (by rw [show |(21.1458:ℝ) - 18.52| = 2.6258 from by norm_num]; norm_num)
      (by rw [show |(79.0882:ℝ) - 73.85| = 5.2382 from by norm_num]; norm_num)
      (by rw [show |(21.1458:ℝ)| = 21.1458 from by norm_num]; norm_num))

theorem dist_lt_NAS :
    getDistance 18.52 73.85 18.5204 73.8567 < getDistance 18.52 73.85 19.9975 73.7898 :=
  pune_dist_lt _ _
    (aval_ge_eps_dLat
      (by rw [show |(19.9975:ℝ) - 18.52| = 1.4775 from by norm_num]; norm_num)
      (by rw [show |(19.9975:ℝ) - 18.52| = 1.4775 from by norm_num]; norm_num)
      (by rw [show |(19.9975:ℝ)| = 19.9975 from by norm_num]; norm_num))
    (aval_le_half
      (by rw [show |(19.9975:ℝ) - 18.52| = 1.4775 from by norm_num]; norm_num)
      (by rw [show |(73.7898:ℝ) - 73.85| = 0.0602 from by norm_num]; norm_num)
      (by rw [show |(19.9975:ℝ)| = 19.9975 from by norm_num]; norm_num))

theorem dist_lt_AUR :
    getDistance 18.52 73.85 18.5204 73.8567 < getDistance 18.52 73.85 19.8762 75.3433 :=
  pune_dist_lt _ _
    (aval_ge_eps_dLat
      (by rw [show |(19.8762:ℝ) - 18.52| = 1.3562 from by norm_num]; norm_num)
      (by rw [show |(19.8762:ℝ) - 18.52| = 1.3562 from by norm_num]; norm_num)
      (by rw [show |(19.8762:ℝ)| = 19.8762 from by norm_num]; norm_num))
    (aval_le_half
      (by rw [show |(19.8762:ℝ) - 18.52| = 1.3562 from by norm_num]; norm_num)
      (by rw [show |(75.3433:ℝ) - 73.85| = 1.4933 from by norm_num]; norm_num)
      (by rw [show |(19.8762:ℝ)| = 19.8762 from by norm_num]; norm_num))

theorem dist_lt_SOL :
    getDistance 18.52 73.85 18.5204 73.8567 < getDistance 18.52 73.85 17.6599 75.9064 :=
  pune_dist_lt _ _
    (aval_ge_eps_dLat
      (by rw [show |(17.6599:ℝ) - 18.52| = 0.8601 from by norm_num]; norm_num)
      (by rw [show |(17.6599:ℝ) - 18.52| = 0.8601 from by norm_num]; norm_num)
      (by rw [show |(17.6599:ℝ)| = 17.6599 from by norm_num]; norm_num))
    (aval_le_half
      (by rw [show |(17.6599:ℝ) - 18.52| = 0.8601 from by norm_num]; norm_num)
      (by rw [show |(75.9064:ℝ) - 73.85| = 2.0564 from by norm_num]; norm_num)
      (by rw [show |(17.6599:ℝ)| = 17.6599 from by norm_num]; norm_num))

theorem dist_lt_THA :
    getDistance 18.52 73.85 18.5204 73.8567 < getDistance 18.52 73.85 19.2183 72.9781 :=
  pune_dist_lt _ _
    (aval_ge_eps_dLat
      (by rw [show |(19.2183:ℝ) - 18.52| = 0.6983 from by norm_num]; norm_num)
      (by rw [show |(19.2183:ℝ) - 18.52| = 0.6983 from by norm_num]; norm_num)
      (by rw [show |(19.2183:ℝ)| = 19.2183 from by norm_num]; norm_num))
    (aval_le_half
      (by rw [show |(19.2183:ℝ) - 18.52| = 0.6983 from by norm_num]; norm_num)
      (by rw [show |(72.9781:ℝ) - 73.85| = 0.8719 from by norm_num]; norm_num)
      (by rw [show |(19.2183:ℝ)| = 19.2183 from by norm_num]; norm_num))

theorem dist_lt_AHM :
    getDistance 18.52 73.85 18.5204 73.8567 < getDistance 18.52 73.85 19.0948 74.7480 :=
  pune_dist_lt _ _
    (aval_ge_eps_dLat
      (by rw [show |(19.0948:ℝ) - 18.52| = 0.5748 from by norm_num]; norm_num)
      (by rw [show |(19.0948:ℝ) - 18.52| = 0.5748 from by norm_num]; norm_num)
      (by rw [show |(19.0948:ℝ)| = 19.0948 from by norm_num]; norm_num))
    (aval_le_half
      (by rw [show |(19.0948:ℝ) - 18.52| = 0.5748 from by norm_num]; norm_num)
      (by rw [show |(74.7480:ℝ) - 73.85| = 0.8980 from by norm_num]; norm_num)
      (by rw [show |(19.0948:ℝ)| = 19.0948 from by norm_num]; norm_num))

theorem dist_lt_SAT :
    getDistance 18.52 73.85 18.5204 73.8567 < getDistance 18.52 73.85 17.6805 73.9903 :=
  pune_dist_lt _ _
    (aval_ge_eps_dLat
      (by rw [show |(17.6805:ℝ) - 18.52| = 0.8395 from by norm_num]; norm_num)
      (by rw [show |(17.6805:ℝ) - 18.52| = 0.8395 from by norm_num]; norm_num)
      (by rw [show |(17.6805:ℝ)| = 17.6805 from by norm_num]; norm_num))
    (aval_le_half
      (by rw [show |(17.6805:ℝ) - 18.52| = 0.8395 from by norm_num]; norm_num)
      (by rw [show |(73.9903:ℝ) - 73.85| = 0.1403 from by norm_num]; norm_num)
      (by rw [show |(17.6805:ℝ)| = 17.6805 from by norm_num]; norm_num))

theorem dist_lt_SAN :
    getDistance 18.52 73.85 18.5204 73.8567 < getDistance 18.52 73.85 16.8524 74.5815 :=
  pune_dist_lt _ _
    (aval_ge_eps_dLat
      (by rw [show |(16.8524:ℝ) - 18.52| = 1.6676 from by norm_num]; norm_num)
      (by rw [show |(16.8524:ℝ) - 18.52| = 1.6676 from by norm_num]; norm_num)
      (by rw [show |(16.8524:ℝ)| = 16.8524 from by norm_num]; norm_num))
    (aval_le_half
      (by rw [show |(16.8524:ℝ) - 18.52| = 1.6676 from by norm_num]; norm_num)
      (by rw [show |(74.5815:ℝ) - 73.85| = 0.7315 from by norm_num]; norm_num)
      (by rw [show |(16.8524:ℝ)| = 16.8524 from by norm_num]; norm_num))

theorem dist_lt_JAL :
    getDistance 18.52 73.85 18.5204 73.8567 < getDistance 18.52 73.85 21.0077 75.5626 :=
  pune_dist_lt _ _
    (aval_ge_eps_dLat
      (by rw [show |(21.0077:ℝ) - 18.52| = 2.4877 from by norm_num]; norm_num)
      (by rw [show |(21.0077:ℝ) - 18.52| = 2.4877 from by norm_num]; norm_num)
      (by rw [show |(21.0077:ℝ)| = 21.0077 from by norm_num]; norm_num))
    (aval_le_half
      (by rw [show |(21.0077:ℝ) - 18.52| = 2.4877 from by norm_num]; norm_num)
      (by rw [show |(75.5626:ℝ) - 73.85| = 1.7126 from by norm_num]; norm_num)
      (by rw [show |(21.0077:ℝ)| = 21.0077 from by norm_num]; norm_num))

theorem dist_lt_AMR :
    getDistance 18.52 73.85 18.5204 73.8567 < getDistance 18.52 73.85 20.9320 77.7523 :=
  pune_dist_lt _ _
    (aval_ge_eps_dLat
      (by rw [show |(20.9320:ℝ) - 18.52| = 2.4120 from by norm_num]; norm_num)
      (by rw [show |(20.9320:ℝ) - 18.52| = 2.4120 from by norm_num]; norm_num)
      (by rw [show |(20.9320:ℝ)| = 20.9320 from by norm_num]; norm_num))
    (aval_le_half
      (by rw [show |(20.9320:ℝ) - 18.52| = 2.4120 from by norm_num]; norm_num)
      (by rw [show |(77.7523:ℝ) - 73.85| = 3.9023 from by norm_num]; norm_num)
      (by rw [show |(20.9320:ℝ)| = 20.9320 from by norm_num]; norm_num))

theorem dist_lt_RAT :
    getDistance 18.52 73.85 18.5204 73.8567 < getDistance 18.52 73.85 16.9902 73.3120 :=
  pune_dist_lt _ _
    (aval_ge_eps_dLat
      (by rw [show |(16.9902:ℝ) - 18.52| = 1.5298 from by norm_num]; norm_num)
      (by rw [show |(16.9902:ℝ) - 18.52| = 1.5298 from by norm_num]; norm_num)
      (by rw [show |(16.9902:ℝ)| = 16.9902 from by norm_num]; norm_num))
    (aval_le_half
      (by rw [show |(16.9902:ℝ) - 18.52| = 1.5298 from by norm_num]; norm_num)
      (by rw [show |(73.3120:ℝ) - 73.85| = 0.5380 from by norm_num]; norm_num)
      (by rw [show |(16.9902:ℝ)| = 16.9902 from by norm_num]; norm_num))

theorem aval_ge_eps_RAI : 1/100000 ≤ haversineA 18.52 73.85 18.5204 73.0169 := by
  have h := @haversineA_ge_dLng 18.52 73.85 18.5204 73.0169 0.00726 (by norm_num)
    (by rw [show |(73.0169:ℝ) - 73.85| = 0.8331 from by norm_num]; norm_num)
    (by rw [show |(73.0169:ℝ) - 73.85| = 0.8331 from by norm_num]; norm_num)
    (by rw [show |(18.52:ℝ)| = 18.52 from by norm_num]; norm_num)
    (by rw [show |(18.5204:ℝ)| = 18.5204 from by norm_num]; norm_num)
  calc (1/100000 : ℝ) ≤ 0.84 * 0.00726 ^ 2 := by norm_num
    _ ≤ haversineA 18.52 73.85 18.5204 73.0169 := h

theorem dist_lt_RAI :
    getDistance 18.52 73.85 18.5204 73.8567 < getDistance 18.52 73.85 18.5204 73.0169 :=
  pune_dist_lt _ _ aval_ge_eps_RAI
    (aval_le_half
      (by rw [show |(18.5204:ℝ) - 18.52| = 0.0004 from by norm_num]; norm_num)
      (by rw [show |(73.0169:ℝ) - 73.85| = 0.8331 from by norm_num]; norm_num)
      (by rw [show |(18.5204:ℝ)| = 18.5204 from by norm_num]; norm_num))

/-- The concrete scan: at `(18.52, 73.85)` with the static seed list the
nearest district is Pune. -/
theorem nearestScan_pune :
    nearestScan 18.52 73.85 MAHARASHTRA_DISTRICTS =
      some ⟨"Pune", 18.5204, 73.8567, "PUN"⟩ := by
  have hx : (⟨"Pune", 18.5204, 73.8567, "PUN"⟩ : District) ∈ MAHARASHTRA_DISTRICTS := by
    simp [MAHARASHTRA_DISTRICTS]
  have hmin : ∀ y ∈ MAHARASHTRA_DISTRICTS,
      y ≠ (⟨"Pune", 18.5204, 73.8567, "PUN"⟩ : District) →
      getDistance ((18.52 : ℚ) : ℝ) ((73.85 : ℚ) : ℝ) ((18.5204 : ℚ) : ℝ)
          ((73.8567 : ℚ) : ℝ) <
        getDistance ((18.52 : ℚ) : ℝ) ((73.85 : ℚ) : ℝ) (y.lat : ℝ) (y.lng : ℝ) := by
    intro y hy hne
    simp only [MAHARASHTRA_DISTRICTS, List.mem_cons, List.not_mem_nil, or_false] at hy
    rcases hy with rfl | rfl | rfl | rfl | rfl | rfl | rfl | rfl | rfl | rfl | rfl | rfl | rfl | rfl | rfl
    · dsimp only
      simp only [Rat.cast_ofScientific]
      exact dist_lt_KOL
    · dsimp only
      simp only [Rat.cast_ofScientific]
      exact dist_lt_MUM
    · exact absurd rfl hne
    · dsimp only
      simp only [Rat.cast_ofScientific]
      exact dist_lt_NAG
    · dsimp only
      simp only [Rat.cast_ofScientific]
      exact dist_lt_NAS
    · dsimp only
      simp only [Rat.cast_ofScientific]
      exact dist_lt_AUR
    · dsimp only
      simp only [Rat.cast_ofScientific]
      exact dist_lt_SOL
    · dsimp only
      simp only [Rat.cast_ofScientific]
      exact dist_lt_THA
    · dsimp only
      simp only [Rat.cast_ofScientific]
      exact dist_lt_AHM
    · dsimp only
      simp only [Rat.cast_ofScientific]
      exact dist_lt_SAT
    · dsimp only
      simp only [Rat.cast_ofScientific]
      exact dist_lt_SAN
    · dsimp only
      simp only [Rat.cast_ofScientific]
      exact dist_lt_JAL
    · dsimp only
      simp only [Rat.cast_ofScientific]
      exact dist_lt_AMR
    · dsimp only
      simp only [Rat.cast_ofScientific]
      exact dist_lt_RAI
    · dsimp only
      simp only [Rat.cast_ofScientific]
      exact dist_lt_RAT
  unfold nearestScan
  rw [minFold_unique
    (fun d => getDistance ((18.52 : ℚ) : ℝ) ((73.85 : ℚ) : ℝ) (d.lat : ℝ) (d.lng : ℝ))
    MAHARASHTRA_DISTRICTS ⟨"Pune", 18.5204, 73.8567, "PUN"⟩ hx hmin]
  rfl

/-- Claim C4 (counterexample):  The claim that *every* body with both
coordinates present reaches the nearest-district computation is false:
`{lat: 18.52, lng: 0}` has both fields present, yet the truthiness guard
rejects the zero longitude with a 400. -/
theorem C4_counterexample :
    (some (18.52 : ℚ)).isSome = true ∧ (some (0 : ℚ)).isSome = true ∧
    locationHandler (some 18.52) (some 0) none (Except.ok MAHARASHTRA_DISTRICTS) =
      LocationResult.badRequest := by
  refine ⟨rfl, rfl, ?_⟩
  simp [locationHandler, falsy]

/-- Claim C4 (amended):  For every body whose coordinates are present *and
nonzero*, the handler returns a district of the active set (the cached list,
the stored rows, or the 15-entry static fallback when storage is empty) that
minimizes `getDistance` to the given point; in particular, with the default
seed list, `{lat: 18.52, lng: 73.85}` yields the district named Pune. -/
theorem C4_nearest_district (lat lng : ℚ) (hlat : lat ≠ 0) (hlng : lng ≠ 0) :
    (∀ (ds : List District) (db : Except Unit (List District)), ds ≠ [] →
      ∃ d, locationHandler (some lat) (some lng) (some ds) db =
          LocationResult.ok (some d) ∧ d ∈ ds ∧
        ∀ e ∈ ds, getDistance (lat : ℝ) (lng : ℝ) (d.lat : ℝ) (d.lng : ℝ) ≤
          getDistance (lat : ℝ) (lng : ℝ) (e.lat : ℝ) (e.lng : ℝ)) ∧
    (∀ rows : List District,
      ∃ d, locationHandler (some lat) (some lng) none (Except.ok rows) =
          LocationResult.ok (some d) ∧
        d ∈ (if 0 < rows.length then rows else MAHARASHTRA_DISTRICTS) ∧
        ∀ e ∈ (if 0 < rows.length then rows else MAHARASHTRA_DISTRICTS),
          getDistance (lat : ℝ) (lng : ℝ) (d.lat : ℝ) (d.lng : ℝ) ≤
            getDistance (lat : ℝ) (lng : ℝ) (e.lat : ℝ) (e.lng : ℝ)) ∧
    locationHandler (some 18.52) (some 73.85) none (Except.ok []) =
      LocationResult.ok (some ⟨"Pune", 18.5204, 73.8567, "PUN"⟩) := by
  have hfl : falsy (some lat) = false := by simp [falsy, hlat]
  have hfg : falsy (some lng) = false := by simp [falsy, hlng]
  refine ⟨?_, ?_, ?_⟩
  · intro ds db hne
    obtain ⟨d, hscan, hmem, hall⟩ := nearestScan_spec lat lng ds hne
    refine ⟨d, ?_, hmem, hall⟩
    unfold locationHandler
    rw [hfl, hfg]
    simp [hscan]
  · intro rows
    have hne : (if 0 < rows.length then rows else MAHARASHTRA_DISTRICTS) ≠ [] := by
      by_cases hr : 0 < rows.length
      · simp only [hr, if_true]
        intro h
        rw [h] at hr
        simp at hr
      · simp only [hr, if_false]
        simp [MAHARASHTRA_DISTRICTS]
    obtain ⟨d, hscan, hmem, hall⟩ :=
      nearestScan_spec lat lng (if 0 < rows.length then rows else MAHARASHTRA_DISTRICTS)
        hne
    refine ⟨d, ?_, hmem, hall⟩
    unfold locationHandler
    rw [hfl, hfg]
    simp [hscan]
  · unfold locationHandler
    have h1 : falsy (some (18.52 : ℚ)) = false := by
      simp only [falsy]
      rw [beq_eq_false_iff_ne]
      norm_num
    have h2 : falsy (some (73.85 : ℚ)) = false := by
      simp only [falsy]
      rw [beq_eq_false_iff_ne]
      norm_num
    rw [h1, h2]
    simpa using nearestScan_pune

/-- Witness for `C4_nearest_district` at `{lat: 18.52, lng: 73.85}` with a
cached copy of the seed list, and the concrete Pune lookup. -/
theorem C4_nearest_district_witness :
    ((18.52 : ℚ) ≠ 0 ∧ (73.85 : ℚ) ≠ 0 ∧ MAHARASHTRA_DISTRICTS ≠ []) ∧
    (∃ d, locationHandler (some 18.52) (some 73.85) (some MAHARASHTRA_DISTRICTS)
        (Except.ok []) = LocationResult.ok (some d) ∧ d ∈ MAHARASHTRA_DISTRICTS ∧
      ∀ e ∈ MAHARASHTRA_DISTRICTS,
        getDistance ((18.52 : ℚ) : ℝ) ((73.85 : ℚ) : ℝ) (d.lat : ℝ) (d.lng : ℝ) ≤
          getDistance ((18.52 : ℚ) : ℝ) ((73.85 : ℚ) : ℝ) (e.lat : ℝ) (e.lng : ℝ)) ∧
    locationHandler (some 18.52) (some 73.85) none (Except.ok []) =
      LocationResult.ok (some ⟨"Pune", 18.5204, 73.8567, "PUN"⟩) :=
  ⟨⟨by norm_num, by norm_num, by simp [MAHARASHTRA_DISTRICTS]⟩,
    (C4_nearest_district 18.52 73.85 (by norm_num) (by norm_num)).1
      MAHARASHTRA_DISTRICTS (Except.ok []) (by simp [MAHARASHTRA_DISTRICTS]),
    (C4_nearest_district 18.52 73.85 (by norm_num) (by norm_num)).2.2⟩

end Mgnrega
